import Mathlib

/-!
Verification development for `vivitrip/mcp-demo`.

A shallow embedding of the Go handlers of the demo MCP servers
(`mcp/server/dynamictool`, `mcp/server/sse`), of the REST greeter and the
adapter in front of it (`adapter/rest2mcp`), and of the notifying tool of the
streamable-HTTP test, together with the registry operations they call, followed
by theorems about their behaviour.

Conventions of the embedding.

* A Go value of interface type `any` is a value of `Any`.
* A handler returning `(*mcp.CallToolResult, error)` returns an `Outcome`:
  `result r` for `(r, nil)`, `error msg` for `(nil, err)` with
  `err.Error() = msg`, and `panicked` when a single-valued type assertion
  `x.(T)` fails, which in Go raises a run-time panic.
* Go's `range` over a map visits the entries in an unspecified order that may
  differ from one loop to the next; every call therefore carries the order in
  which its loop visits them (`Shuffle`).
-/

namespace MCPDemo

/-! ## Values of type `any` -/

/-- A decoded JSON value held in a Go `any`: `nil`, `bool`, `float64` (kept as
its 64-bit pattern; no handler inspects it), `string`, `[]any`,
`map[string]any`. -/
inductive Any where
  | null : Any
  | bool (b : Bool) : Any
  | number (bits : Nat) : Any
  | str (s : String) : Any
  | arr (elems : List Any) : Any
  | obj (fields : List (String × Any)) : Any

/-- Indexing a Go `map[string]any` held as a list of bindings: the value of the
first binding of `key`, if any. -/
def mapGet (fields : List (String × Any)) (key : String) : Option Any :=
  match fields with
  | [] => none
  | (k, v) :: rest => if k = key then some v else mapGet rest key

/-- The Go expression `m[key]` for `m : map[string]any`: the bound value, or the
zero value `nil` when the key is absent. -/
def mapIndex (fields : List (String × Any)) (key : String) : Any :=
  match mapGet fields key with
  | some v => v
  | none => Any.null

/-- The comma-ok assertion `v.(string)`: `some s` when `v` holds a string. -/
def asString : Any → Option String
  | Any.str s => some s
  | _ => none

/-- The assertion `v.(map[string]any)`: `some fields` when `v` holds a map. In
its single-valued form a `none` here is a run-time panic. -/
def asMap : Any → Option (List (String × Any))
  | Any.obj fields => some fields
  | _ => none

/-! ## Results -/

/-- One item of `CallToolResult.Content`; the handlers only build text items. -/
inductive Content where
  | text (text : String) : Content
  deriving DecidableEq, Repr

/-- The part of `mcp.CallToolResult` the handlers fill in. -/
structure CallToolResult where
  content : List Content
  isError : Bool
  deriving DecidableEq, Repr

/-- `mcp.NewToolResultText`: a result with a single text item. -/
def NewToolResultText (text : String) : CallToolResult :=
  { content := [Content.text text], isError := false }

/-- What a handler call produces. -/
inductive Outcome where
  | result (r : CallToolResult) : Outcome
  | error (msg : String) : Outcome
  | panicked : Outcome
  deriving DecidableEq, Repr

/-! ## Parameter specifications and iteration order -/

/-- The Go `map[string]bool` that `json.Unmarshal` fills from `paramList`, held
as its list of bindings (parameter name, required flag). -/
abbrev ParamList := List (String × Bool)

/-- The keys of a parameter specification are pairwise distinct, as the keys of
a Go map are. -/
def ParamList.WellFormed (P : ParamList) : Prop := (P.map Prod.fst).Nodup

instance (P : ParamList) : Decidable P.WellFormed := by
  unfold ParamList.WellFormed; infer_instance

/-- The order in which one `range` loop visits the bindings of a map: some
rearrangement of them, chosen by the Go runtime. -/
structure Shuffle where
  visit : ParamList → List (String × Bool)
  perm : ∀ P, (visit P).Perm P

/-- The loop visits the bindings in the order they are listed. -/
def Shuffle.inOrder : Shuffle := { visit := fun P => P, perm := fun P => List.Perm.refl P }

/-- The loop visits the bindings in the opposite order. -/
def Shuffle.backwards : Shuffle :=
  { visit := fun P => P.reverse, perm := fun P => List.reverse_perm P }

/-! ## Tools and the registry -/

/-- Modelled from the spec: the Parameter Contract of §3 (name, required flag),
with the description the source attaches through `mcp.Description`; the type of
every declared parameter is string (`mcp.WithString`). The `mcp` package that
declares tool schemas is not among the sources. -/
structure ParameterContract where
  name : String
  required : Bool
  description : String
  deriving DecidableEq, Repr

/-- Modelled from the spec: the name, description and contract of a Capability
Entry (§3), which the source builds with `mcp.NewTool`; the `mcp` package is not
among the sources. -/
structure Tool where
  name : String
  description : String
  contract : List ParameterContract
  deriving DecidableEq, Repr

/-- An option passed to `mcp.WithString`. -/
abbrev PropertyOption := ParameterContract → ParameterContract

/-- An option passed to `mcp.NewTool`. -/
abbrev ToolOption := Tool → Tool

/-- Modelled from the spec: `mcp.Required()` marks the parameter required. -/
def Required : PropertyOption := fun p => { p with required := true }

/-- Modelled from the spec: `mcp.Description(d)` sets the parameter description. -/
def Description (d : String) : PropertyOption := fun p => { p with description := d }

/-- Modelled from the spec: `mcp.WithDescription(d)` sets the tool description. -/
def WithDescription (d : String) : ToolOption := fun t => { t with description := d }

/-- Modelled from the spec: `mcp.WithString(name, opts...)` declares a string
parameter; parameter names are unique within one contract (§3), so a declaration
under an existing name replaces it. -/
def WithString (name : String) (opts : List PropertyOption) : ToolOption := fun t =>
  let p := opts.foldl (fun p o => o p) { name := name, required := false, description := "" }
  { t with contract := t.contract.filter (fun q => decide (q.name ≠ name)) ++ [p] }

/-- Modelled from the spec: `mcp.NewTool(name, opts...)` applies the options in
order to a tool with the given name, an empty description and an empty contract. -/
def NewTool (name : String) (opts : List ToolOption) : Tool :=
  opts.foldl (fun t o => o t) { name := name, description := "", contract := [] }

/-- The handler stored in a registry entry: one of the three named handler
functions of `dynamictool/server.go`, or the closure built by `addToolHandler`
(lines 94-110) with the two variables it captures. -/
inductive Handler where
  | hello : Handler
  | addTool : Handler
  | deleteTool : Handler
  | dynamic (toolName : String) (paramList : ParamList) : Handler
  deriving DecidableEq, Repr

/-- Modelled from the spec: a Capability Entry (§3), the pair of a tool and its
handler that `s.AddTool` stores. -/
structure ServerTool where
  tool : Tool
  handler : Handler
  deriving DecidableEq, Repr

/-- Modelled from the spec: the Capability Registry (§3), a mapping from
operation name to entry with at most one entry per name. It is the state of the
global variable `s` of `dynamictool/server.go`. -/
abbrev Registry := String → Option ServerTool

/-- Modelled from the spec: `server.NewMCPServer` starts with no tool. -/
def NewMCPServer : Registry := fun _ => none

/-- Modelled from the spec: `register(entry)` of §4.1, which `s.AddTool(tool,
handler)` performs: inserts or replaces the entry keyed by the tool name. -/
def AddTool (s : Registry) (tool : Tool) (handler : Handler) : Registry :=
  fun k => if k = tool.name then some { tool := tool, handler := handler } else s k

/-- Modelled from the spec: `revoke(name)` of §4.1, which `s.DeleteTools(name)`
performs: removes the entry keyed by `name` if present, no-op if absent. -/
def DeleteTools (s : Registry) (name : String) : Registry :=
  fun k => if k = name then none else s k

namespace DynamicTool

/-- `helloHandler` of `mcp/server/dynamictool/server.go`. -/
def helloHandler (arguments : Any) : Outcome :=
  match asMap arguments with
  | none => Outcome.panicked
  | some fields =>
    match asString (mapIndex fields "name") with
    | none => Outcome.error "name must be a string"
    | some name =>
      Outcome.result
        (NewToolResultText ("Hello, " ++ name ++ "!, This is from your go mcp server"))

/-- The text the closure of `addToolHandler` returns on success (lines 108-109). -/
def executedText (toolName : String) : String :=
  "Tool " ++ toolName ++ " executed successfully! Response: " ++
    "this answer is from your go mcp server"

/-- The closure registered by `addToolHandler` (lines 94-110), with the captured
`toolName` and the bindings of the captured `paramList` in the order `visit` in
which this call's `range` loop meets them. -/
def genericHandler (toolName : String) (visit : List (String × Bool)) (arguments : Any) :
    Outcome :=
  match visit with
  | [] => Outcome.result (NewToolResultText (executedText toolName))
  | (paramName, isRequired) :: rest =>
    if isRequired then
      match asMap arguments with
      | none => Outcome.error "invalid arguments format"
      | some argsMap =>
        match mapGet argsMap paramName with
        | none => Outcome.error ("missing required parameter: " ++ paramName)
        | some _ => genericHandler toolName rest arguments
    else genericHandler toolName rest arguments

/-- The slice `toolOptions` of `addToolHandler` (lines 82-89): the description,
then one string parameter per binding of `paramList` in the order visited. -/
def toolOptions (toolDesc : String) (visit : List (String × Bool)) : List ToolOption :=
  WithDescription toolDesc ::
    visit.map (fun b => if b.2 then WithString b.1 [Required] else WithString b.1 [])

/-- The text `addToolHandler` returns on success (line 111). -/
def addedText (toolName toolDesc : String) : String :=
  "Tool " ++ toolName ++ " with description \x27" ++ toolDesc ++
    "\x27 and parameters added successfully!"

/-- `addToolHandler` of `mcp/server/dynamictool/server.go`, acting on the global
registry `s`. `unmarshal` is `json.Unmarshal` into a `map[string]bool` (standard
library, not among the sources), giving the bindings or the error text. -/
def addToolHandler (unmarshal : String → Except String ParamList) (order : Shuffle)
    (s : Registry) (arguments : Any) : Registry × Outcome :=
  match asMap arguments with
  | none => (s, Outcome.panicked)
  | some fields =>
    match asString (mapIndex fields "toolName") with
    | none => (s, Outcome.error "toolName must be a string")
    | some toolName =>
      match asString (mapIndex fields "toolDesc") with
      | none => (s, Outcome.error "toolDesc must be a string")
      | some toolDesc =>
        match asString (mapIndex fields "paramList") with
        | none => (s, Outcome.error "paramList must be a JSON string")
        | some paramListStr =>
          match unmarshal paramListStr with
          | Except.error err => (s, Outcome.error ("failed to parse paramList: " ++ err))
          | Except.ok paramList =>
            let newTool := NewTool toolName (toolOptions toolDesc (order.visit paramList))
            (AddTool s newTool (Handler.dynamic toolName paramList),
              Outcome.result (NewToolResultText (addedText toolName toolDesc)))

/-- `deleteToolHandler` of `mcp/server/dynamictool/server.go`, acting on the
global registry `s`. -/
def deleteToolHandler (s : Registry) (arguments : Any) : Registry × Outcome :=
  match asMap arguments with
  | none => (s, Outcome.panicked)
  | some fields =>
    match asString (mapIndex fields "toolName") with
    | none => (s, Outcome.error "toolName must be a string")
    | some toolName =>
      (DeleteTools s toolName,
        Outcome.result (NewToolResultText ("Tool " ++ toolName ++ " removed successfully!")))

/-- The registry `main` of `mcp/server/dynamictool/server.go` sets up before it
starts serving (lines 17-38). -/
def main : Registry :=
  let s := NewMCPServer
  let greetTool := NewTool "hello_world"
    [WithDescription "Say hello to someone",
     WithString "name" [Required, Description "Name of the person to greet"]]
  let s := AddTool s greetTool Handler.hello
  let addTool := NewTool "add_tool" [WithDescription "add_tool"]
  let s := AddTool s addTool Handler.addTool
  let deleteTool := NewTool "delete_tool" [WithDescription "delete_tool"]
  AddTool s deleteTool Handler.deleteTool

/-- Running the handler stored in a registry entry on the arguments of a call. -/
def runHandler (unmarshal : String → Except String ParamList) (h : Handler) (order : Shuffle)
    (s : Registry) (arguments : Any) : Registry × Outcome :=
  match h with
  | Handler.hello => (s, helloHandler arguments)
  | Handler.addTool => addToolHandler unmarshal order s arguments
  | Handler.deleteTool => deleteToolHandler s arguments
  | Handler.dynamic toolName paramList =>
    (s, genericHandler toolName (order.visit paramList) arguments)

/-- One inbound call: the operation name, the raw arguments, and the order in
which the `range` loop run while serving it visits its map. -/
structure Call where
  name : String
  arguments : Any
  order : Shuffle

/-- What the dispatcher hands back to the caller. -/
inductive DispatchOutcome where
  | unknownOperation (name : String) : DispatchOutcome
  | invalidArguments (msg : String) : DispatchOutcome
  | handled (o : Outcome) : DispatchOutcome
  deriving DecidableEq, Repr

/-- Modelled from the spec: step 2 of `dispatch(call)` (§4.2), the validation of
the arguments against the contract. Each contract parameter marked required is
checked, and the first failure is the error of the call; parameters not marked
required and arguments the contract does not declare are not looked at. What
the check of one required parameter demands (presence; a value of the declared
type) is the parameter `check`, which gives the error of a rejected argument
set. -/
def validateArguments (check : ParameterContract → Any → Option String) :
    List ParameterContract → Any → Option String
  | [], _ => none
  | c :: rest, arguments =>
    if c.required then
      match check c arguments with
      | some msg => some msg
      | none => validateArguments check rest arguments
    else validateArguments check rest arguments

/-- Modelled from the spec: `dispatch(call)` of §4.2. The dispatcher belongs to
the tool-server runtime and is not among the sources; only the handlers it calls
are. Step 1 resolves the name (absent: `UnknownOperation` with the attempted
name); step 2 validates the arguments against the contract, a failure
short-circuiting step 3; steps 3-4 run the handler and return its result or
error unchanged. -/
def dispatch (check : ParameterContract → Any → Option String)
    (unmarshal : String → Except String ParamList) (s : Registry) (c : Call) :
    Registry × DispatchOutcome :=
  match s c.name with
  | none => (s, DispatchOutcome.unknownOperation c.name)
  | some entry =>
    match validateArguments check entry.tool.contract c.arguments with
    | some msg => (s, DispatchOutcome.invalidArguments msg)
    | none =>
      let r := runHandler unmarshal entry.handler c.order s c.arguments
      (r.1, DispatchOutcome.handled r.2)

/-- The registry after serving a sequence of calls one after the other. -/
def run (check : ParameterContract → Any → Option String)
    (unmarshal : String → Except String ParamList) (s : Registry) : List Call → Registry
  | [] => s
  | c :: cs => run check unmarshal (dispatch check unmarshal s c).1 cs

/-- The string the arguments bind "toolName" to, when they are a map that does. -/
def toolNameOf (arguments : Any) : Option String :=
  match asMap arguments with
  | none => none
  | some fields => asString (mapIndex fields "toolName")

/-- The call is an `add_tool` call whose `toolName` is `n`. -/
def Call.defines (c : Call) (n : String) : Prop :=
  c.name = "add_tool" ∧ toolNameOf c.arguments = some n

/-- The call is a `delete_tool` call whose `toolName` is `n`. -/
def Call.revokes (c : Call) (n : String) : Prop :=
  c.name = "delete_tool" ∧ toolNameOf c.arguments = some n

/-- The two registry-changing handlers are bound, if at all, to the names `main`
gave them: `addToolHandler` only to "add_tool", `deleteToolHandler` only to
"delete_tool". -/
def WellBound (s : Registry) : Prop :=
  ∀ k entry, s k = some entry →
    (entry.handler = Handler.addTool → k = "add_tool") ∧
      (entry.handler = Handler.deleteTool → k = "delete_tool")

end DynamicTool

namespace SSE

/-- `helloHandler` of `mcp/server/sse/server.go` (and, word for word, of
`mcp/server/stdio/server.go`); there `request.Params.Arguments` is already a
`map[string]interface{}`. -/
def helloHandler (arguments : List (String × Any)) : Outcome :=
  match asString (mapIndex arguments "name") with
  | none => Outcome.error "name must be a string"
  | some name =>
    Outcome.result
      (NewToolResultText ("Hello, " ++ name ++ "!, This is from your go mcp server"))

end SSE

/-! ## A decoder for flat objects of booleans

The theorems below hold for every `unmarshal`. To evaluate the handlers on
concrete requests the parameter is instantiated with `decodeFlags`, which reads
the JSON texts the tests send: an object whose keys are strings without escape
sequences and whose values are `true` or `false`. -/

/-- Drops leading JSON white space (space, tab, line feed, carriage return). -/
def skipSpace : List Char → List Char
  | [] => []
  | c :: cs =>
    if c.toNat = 32 ∨ c.toNat = 9 ∨ c.toNat = 10 ∨ c.toNat = 13 then skipSpace cs else c :: cs

/-- Reads the characters of a key up to the closing quote (code 34); a backslash
(code 92) is not accepted. `acc` holds the characters read so far, reversed. -/
def readKey (acc : List Char) : List Char → Option (String × List Char)
  | [] => none
  | c :: cs =>
    if c.toNat = 34 then some (String.mk acc.reverse, cs)
    else if c.toNat = 92 then none
    else readKey (c :: acc) cs

/-- Reads the literal `true` or `false`. -/
def readFlag (cs : List Char) : Option (Bool × List Char) :=
  if (cs.take 4).map Char.toNat = [116, 114, 117, 101] then some (true, cs.drop 4)
  else if (cs.take 5).map Char.toNat = [102, 97, 108, 115, 101] then some (false, cs.drop 5)
  else none

/-- Binds `key` to `flag`, replacing an earlier binding of the same key. -/
def bindFlag (P : ParamList) (key : String) (flag : Bool) : ParamList :=
  P.filter (fun b => decide (b.1 ≠ key)) ++ [(key, flag)]

/-- Reads the members of an object after its opening brace; `fuel` bounds the
number of members. -/
def readMembers : Nat → List Char → ParamList → Option ParamList
  | 0, _, _ => none
  | fuel + 1, cs, acc =>
    match skipSpace cs with
    | c :: cs1 =>
      if c.toNat = 34 then
        match readKey [] cs1 with
        | none => none
        | some (key, cs2) =>
          match skipSpace cs2 with
          | d :: cs3 =>
            if d.toNat = 58 then
              match readFlag (skipSpace cs3) with
              | none => none
              | some (flag, cs4) =>
                match skipSpace cs4 with
                | e :: cs5 =>
                  if e.toNat = 44 then readMembers fuel cs5 (bindFlag acc key flag)
                  else if e.toNat = 125 ∧ skipSpace cs5 = [] then some (bindFlag acc key flag)
                  else none
                | [] => none
            else none
          | [] => none
      else none
    | [] => none

/-- Decodes a flat JSON object of booleans into its bindings. -/
def decodeFlags (text : String) : Except String ParamList :=
  match skipSpace text.data with
  | c :: cs =>
    if c.toNat = 123 then
      match skipSpace cs with
      | d :: rest =>
        if d.toNat = 125 ∧ skipSpace rest = [] then Except.ok []
        else
          match readMembers text.length cs [] with
          | some P => Except.ok P
          | none => Except.error "invalid character in object"
      | [] => Except.error "unexpected end of JSON input"
    else Except.error "cannot unmarshal into Go value of type map[string]bool"
  | [] => Except.error "unexpected end of JSON input"

/-- The check of a required parameter that accepts every argument set, as when
the runtime leaves validation to the handlers. -/
def noCheck : ParameterContract → Any → Option String := fun _ _ => none


/-! ## The REST greeter and the adapter in front of it -/

namespace Rest

/-- `GreetingRequest` of `adapter/rest2mcp/rest/server.go`. -/
structure GreetingRequest where
  name : String
  deriving DecidableEq, Repr

/-- `GreetingResponse` of `adapter/rest2mcp/rest/server.go`. -/
structure GreetingResponse where
  message : String
  deriving DecidableEq, Repr

/-- The part of an `http.Request` that `greetHandler` reads: the method and the
bytes of the body. -/
structure Request where
  method : String
  body : String
  deriving DecidableEq, Repr

/-- What a handler wrote to its `http.ResponseWriter`: the status code, the
content type and the bytes of the body. -/
structure Response where
  statusCode : Nat
  contentType : String
  body : String
  deriving DecidableEq, Repr

/-- The call `http.Error(w, msg, code)` of the standard library: a plain-text
reply with the given status whose body is the message and a line feed. -/
def httpError (msg : String) (code : Nat) : Response :=
  { statusCode := code, contentType := "text/plain; charset=utf-8", body := msg ++ "\n" }

/-- `greetHandler` of `adapter/rest2mcp/rest/server.go`. `decode` is
`json.NewDecoder(r.Body).Decode(&req)` and `encode` is
`json.NewEncoder(w).Encode(response)`, both of the standard library; a reply
written without an explicit status has status 200. -/
def greetHandler (decode : String → Except String GreetingRequest)
    (encode : GreetingResponse → String) (r : Request) : Response :=
  if r.method ≠ "POST" then httpError "Invalid request method" 405
  else
    match decode r.body with
    | Except.error _ => httpError "Invalid request body" 400
    | Except.ok req =>
      if req.name = "" then httpError "Invalid request body" 400
      else
        { statusCode := 200,
          contentType := "application/json",
          body := encode
            { message := "Hello, " ++ req.name ++ "! This is from your rest server" } }

end Rest

namespace Rest2MCP

/-- `helloHandler` of `adapter/rest2mcp/adapter.go`. `marshal` is `json.Marshal`
of the one-entry map with key "name", `post` is `http.Post` to the `/greet`
endpoint with that body (the reply, or the error of a failed exchange), and
`decode` is `json.NewDecoder(resp.Body).Decode(&greetResp)`. -/
def helloHandler (marshal : String → Except String String)
    (post : String → Except String Rest.Response)
    (decode : String → Except String Rest.GreetingResponse)
    (arguments : List (String × Any)) : Outcome :=
  match asString (mapIndex arguments "name") with
  | none => Outcome.error "name must be a string"
  | some name =>
    match marshal name with
    | Except.error err => Outcome.error ("failed to marshal request body: " ++ err)
    | Except.ok reqBody =>
      match post reqBody with
      | Except.error err => Outcome.error ("failed to call /greet endpoint: " ++ err)
      | Except.ok resp =>
        if resp.statusCode ≠ 200 then
          Outcome.error ("received non-200 response: " ++ toString resp.statusCode ++
            ", body: " ++ resp.body)
        else
          match decode resp.body with
          | Except.error err => Outcome.error ("failed to decode response body: " ++ err)
          | Except.ok greetResp => Outcome.result (NewToolResultText greetResp.message)

/-- The `/greet` endpoint when it is served by `greetHandler`: every exchange
succeeds and the reply to a POST with the given body is what the handler wrote. -/
def greetEndpoint (decode : String → Except String Rest.GreetingRequest)
    (encode : Rest.GreetingResponse → String) (reqBody : String) :
    Except String Rest.Response :=
  Except.ok (Rest.greetHandler decode encode { method := "POST", body := reqBody })

end Rest2MCP

/-! ## Codecs for flat objects of strings

The theorems about the greeter and the adapter hold for every encoder and
decoder. To evaluate them on the requests of the tests the parameters are
instantiated with the codecs below, which write and read a JSON object whose
keys and values are strings without escape sequences. -/

/-- Reads the members of an object of strings after its opening brace; `fuel`
bounds the number of members. -/
def readTexts : Nat → List Char → List (String × String) → Option (List (String × String))
  | 0, _, _ => none
  | fuel + 1, cs, acc =>
    match skipSpace cs with
    | c :: cs1 =>
      if c.toNat = 34 then
        match readKey [] cs1 with
        | none => none
        | some (key, cs2) =>
          match skipSpace cs2 with
          | d :: cs3 =>
            if d.toNat = 58 then
              match skipSpace cs3 with
              | q :: cs4 =>
                if q.toNat = 34 then
                  match readKey [] cs4 with
                  | none => none
                  | some (value, cs5) =>
                    match skipSpace cs5 with
                    | e :: cs6 =>
                      if e.toNat = 44 then readTexts fuel cs6 (acc ++ [(key, value)])
                      else if e.toNat = 125 ∧ skipSpace cs6 = [] then
                        some (acc ++ [(key, value)])
                      else none
                    | [] => none
                else none
              | [] => none
            else none
          | [] => none
      else none
    | [] => none

/-- Decodes a flat JSON object of strings and gives the value of `key`, the
empty string when the object has no such key (the zero value of a Go string
field). -/
def decodeText (key : String) (text : String) : Except String String :=
  match skipSpace text.data with
  | c :: cs =>
    if c.toNat = 123 then
      match skipSpace cs with
      | d :: rest =>
        if d.toNat = 125 ∧ skipSpace rest = [] then Except.ok ""
        else
          match readTexts text.length cs [] with
          | some members =>
            match members.reverse.find? (fun m => decide (m.1 = key)) with
            | some m => Except.ok m.2
            | none => Except.ok ""
          | none => Except.error "invalid character in object"
      | [] => Except.error "unexpected end of JSON input"
    else Except.error "cannot unmarshal into Go struct"
  | [] => Except.error "EOF"

/-- Writes the one-member object that binds `key` to `value`. -/
def encodeText (key : String) (value : String) : String :=
  "\x7b\"" ++ key ++ "\":\"" ++ value ++ "\"\x7d"

/-- A decoder of greeting requests. -/
def decodeGreetingRequest (text : String) : Except String Rest.GreetingRequest :=
  match decodeText "name" text with
  | Except.ok n => Except.ok { name := n }
  | Except.error err => Except.error err

/-- An encoder of greeting replies; `Encode` ends the document with a line feed. -/
def encodeGreetingResponse (r : Rest.GreetingResponse) : String :=
  encodeText "message" r.message ++ "\n"

/-- A decoder of greeting replies. -/
def decodeGreetingResponse (text : String) : Except String Rest.GreetingResponse :=
  match decodeText "message" text with
  | Except.ok m => Except.ok { message := m }
  | Except.error err => Except.error err

/-- An encoder of the request body the adapter sends. -/
def marshalName (name : String) : Except String String :=
  Except.ok (encodeText "name" name)

/-! ## The notifying tool of the streamable-HTTP test -/

namespace Streamable

/-- One call `server.SendNotificationToClient(ctx, method, params)`: the session
of the context, the method, and the parameters, whose values here are Go `int`s. -/
structure Notification where
  session : String
  method : String
  params : List (String × Int)
  deriving DecidableEq, Repr

/-- The loop `for i := 0; i < 10; i++` of the handler `addSSETool` registers
(`streamable/server_test.go` lines 49-54): `issued` holds the notifications
sent so far, oldest first. The result of a send is discarded by the handler, and
the pause between two sends is not part of the model. -/
def sendLoop (session : String) (i : Nat) (issued : List Notification) : List Notification :=
  if i < 10 then
    sendLoop session (i + 1)
      (issued ++ [{ session := session, method := "test/notification",
                    params := [("value", (i : Int))] }])
  else issued
termination_by 10 - i

/-- The handler `addSSETool` registers under "sseTool", called in the context of
`session`: the notifications it issued before returning, oldest first, and what
it returned. -/
def sseTool (session : String) : List Notification × Outcome :=
  (sendLoop session 0 [], Outcome.result (NewToolResultText "done"))

end Streamable

/-! ## Sequences of calls to the dynamic-tool server -/

namespace DynamicTool

/-- Modelled from the spec: the presence half of the check of one required
parameter in step 2 of §4.2: the name must be present in the arguments, else the
call fails with `MissingParameter` carrying the parameter name. -/
def presenceCheck (c : ParameterContract) (arguments : Any) : Option String :=
  match asMap arguments with
  | none => some ("MissingParameter: " ++ c.name)
  | some fields =>
    match mapGet fields c.name with
    | none => some ("MissingParameter: " ++ c.name)
    | some _ => none

/-- Every call of the sequence, served one after the other from `s`, is handled
and returns a result. -/
def AllSucceed (check : ParameterContract → Any → Option String)
    (unmarshal : String → Except String ParamList) (s : Registry) : List Call → Prop
  | [] => True
  | c :: cs =>
    (∃ r, (dispatch check unmarshal s c).2 = DispatchOutcome.handled (Outcome.result r)) ∧
      AllSucceed check unmarshal (dispatch check unmarshal s c).1 cs

/-- The last call of the sequence whose `toolName` is `n`: `some true` when it
is a call of "add_tool", `some false` when it is a call of another name, `none`
when no call of the sequence has `toolName` `n`. -/
def lastNaming (n : String) : List Call → Option Bool
  | [] => none
  | c :: cs =>
    match lastNaming n cs with
    | some b => some b
    | none =>
      if toolNameOf c.arguments = some n then some (decide (c.name = "add_tool")) else none

/-- No entry of the registry is bound to `addToolHandler`. -/
def NoAdder (s : Registry) : Prop :=
  ∀ k entry, s k = some entry → entry.handler ≠ Handler.addTool

/-- The built-in operations "add_tool" and "delete_tool" are absent or still
bound to the handlers `main` gave them, and those handlers sit nowhere else. -/
def BuiltinsIntact (s : Registry) : Prop :=
  WellBound s ∧
    (∀ entry, s "add_tool" = some entry → entry.handler = Handler.addTool) ∧
    (∀ entry, s "delete_tool" = some entry → entry.handler = Handler.deleteTool)

end DynamicTool

/-! ## The calls of `dynamictool/server_test.go` and some variants -/

namespace Scenario

open DynamicTool

/-- The text of `paramList` in the test (lines 101-104). -/
def paramListText : String :=
  "\x7b\n\t\t\t\"param1\": true,\n\t\t\t\"param2\": false\n\t\t\x7d"

/-- The arguments of the `add_tool` call of the test (lines 98-105). -/
def addDynamicToolFields : List (String × Any) :=
  [("toolName", Any.str "dynamic_tool"),
   ("toolDesc", Any.str "A dynamically added tool"),
   ("paramList", Any.str paramListText)]

/-- The `add_tool` call of the test (lines 97-105). -/
def addDynamicTool : Call :=
  { name := "add_tool", arguments := Any.obj addDynamicToolFields, order := Shuffle.inOrder }

/-- The call of the new tool of the test (lines 120-123). -/
def callDynamicTool : Call :=
  { name := "dynamic_tool",
    arguments := Any.obj [("param1", Any.str "value1")],
    order := Shuffle.backwards }

/-- The `delete_tool` call of the test (lines 138-141). -/
def deleteDynamicTool : Call :=
  { name := "delete_tool",
    arguments := Any.obj [("toolName", Any.str "dynamic_tool")],
    order := Shuffle.inOrder }

/-- The entry `main` registers under "delete_tool". -/
def deleteEntry : ServerTool :=
  { tool := NewTool "delete_tool" [WithDescription "delete_tool"],
    handler := Handler.deleteTool }

/-- An `add_tool` call whose `toolName` is "delete_tool", with no parameters. -/
def redefineDeleteTool : Call :=
  { name := "add_tool",
    arguments := Any.obj
      [("toolName", Any.str "delete_tool"),
       ("toolDesc", Any.str "redefined"),
       ("paramList", Any.str "\x7b\x7d")],
    order := Shuffle.inOrder }

/-- A `delete_tool` call whose `toolName` is "delete_tool". -/
def deleteDeleteTool : Call :=
  { name := "delete_tool",
    arguments := Any.obj [("toolName", Any.str "delete_tool")],
    order := Shuffle.inOrder }

/-- A call of "delete_tool" with empty arguments. -/
def callDeleteTool : Call :=
  { name := "delete_tool", arguments := Any.obj [], order := Shuffle.inOrder }

/-- The bit pattern of the `float64` 42, which a JSON number 42 decodes to. -/
def fortyTwo : Any := Any.number 0x4045000000000000

/-- An `add_tool` call whose `toolName` is "add_tool", with no parameters. -/
def redefineAddTool : Call :=
  { name := "add_tool",
    arguments := Any.obj
      [("toolName", Any.str "add_tool"),
       ("toolDesc", Any.str "redefined"),
       ("paramList", Any.str "\x7b\x7d")],
    order := Shuffle.inOrder }

/-- An `add_tool` call whose `toolName` is "echo", with one optional parameter. -/
def addEcho : Call :=
  { name := "add_tool",
    arguments := Any.obj
      [("toolName", Any.str "echo"),
       ("toolDesc", Any.str "echo"),
       ("paramList", Any.str "\x7b\"msg\": false\x7d")],
    order := Shuffle.inOrder }

/-- A `delete_tool` call whose `toolName` is "add_tool". -/
def deleteAddTool : Call :=
  { name := "delete_tool",
    arguments := Any.obj [("toolName", Any.str "add_tool")],
    order := Shuffle.inOrder }

/-- A `delete_tool` call whose `toolName` is "hello_world". -/
def deleteHello : Call :=
  { name := "delete_tool",
    arguments := Any.obj [("toolName", Any.str "hello_world")],
    order := Shuffle.inOrder }

/-- A call of "hello_world" with empty arguments. -/
def helloNoName : Call :=
  { name := "hello_world", arguments := Any.obj [], order := Shuffle.inOrder }

/-- A call of "hello_world" that carries no arguments at all. -/
def helloNoArguments : Call :=
  { name := "hello_world", arguments := Any.null, order := Shuffle.inOrder }

/-- The entry `main` registers under "hello_world". -/
def helloEntry : ServerTool :=
  { tool := NewTool "hello_world"
      [WithDescription "Say hello to someone",
       WithString "name" [Required, Description "Name of the person to greet"]],
    handler := Handler.hello }

/-- The entry `main` registers under "add_tool". -/
def addEntry : ServerTool :=
  { tool := NewTool "add_tool" [WithDescription "add_tool"], handler := Handler.addTool }

end Scenario

/-! ## Auxiliary facts -/

open DynamicTool

theorem mapIndex_of_get {fields : List (String × Any)} {key : String} {v : Any}
    (h : mapGet fields key = some v) : mapIndex fields key = v := by
  simp [mapIndex, h]

theorem mapIndex_of_absent {fields : List (String × Any)} {key : String}
    (h : mapGet fields key = none) : mapIndex fields key = Any.null := by
  simp [mapIndex, h]

theorem executedText_eq (toolName : String) :
    executedText toolName =
      "Tool " ++ toolName ++
        " executed successfully! Response: this answer is from your go mcp server" := by
  unfold executedText
  rw [String.append_assoc]
  rfl

theorem addedText_eq (toolName toolDesc : String) :
    addedText toolName toolDesc =
      "Tool " ++ toolName ++ " with description \x27" ++ toolDesc ++
        "\x27 and parameters added successfully!" := rfl

/-- The closure never panics: it ends with its acknowledgment or with an error. -/
theorem genericHandler_total (toolName : String) (visit : List (String × Bool)) (arguments : Any) :
    genericHandler toolName visit arguments =
        Outcome.result (NewToolResultText (executedText toolName)) ∨
      ∃ msg, genericHandler toolName visit arguments = Outcome.error msg := by
  induction visit with
  | nil => left; rfl
  | cons b rest ih =>
    obtain ⟨paramName, isRequired⟩ := b
    cases isRequired with
    | false => simpa [genericHandler] using ih
    | true =>
      cases hm : asMap arguments with
      | none => right; exact ⟨"invalid arguments format", by simp [genericHandler, hm]⟩
      | some argsMap =>
        cases hg : mapGet argsMap paramName with
        | none =>
          right
          exact ⟨"missing required parameter: " ++ paramName, by simp [genericHandler, hm, hg]⟩
        | some v => simpa [genericHandler, hm, hg] using ih

/-- The closure acknowledges exactly when every binding marked required that
its loop visits is a key of the argument map. -/
theorem genericHandler_result_iff (toolName : String) (visit : List (String × Bool))
    (arguments : Any) :
    genericHandler toolName visit arguments =
        Outcome.result (NewToolResultText (executedText toolName)) ↔
      ∀ p, (p, true) ∈ visit →
        ∃ fields, asMap arguments = some fields ∧ mapGet fields p ≠ none := by
  induction visit with
  | nil => simp [genericHandler]
  | cons b rest ih =>
    obtain ⟨paramName, isRequired⟩ := b
    cases isRequired with
    | false =>
      simp only [genericHandler, Bool.false_eq_true, if_false]
      rw [ih]
      constructor
      · intro h p hp
        rcases List.mem_cons.1 hp with heq | hmem
        · cases heq
        · exact h p hmem
      · intro h p hp
        exact h p (List.mem_cons_of_mem _ hp)
    | true =>
      cases hm : asMap arguments with
      | none =>
        simp only [genericHandler, if_true, hm]
        constructor
        · intro h; cases h
        · intro h
          obtain ⟨fields, hf, _⟩ := h paramName (List.mem_cons_self _ _)
          cases hf
      | some argsMap =>
        cases hg : mapGet argsMap paramName with
        | none =>
          simp only [genericHandler, if_true, hm, hg]
          constructor
          · intro h; cases h
          · intro h
            obtain ⟨fields, hf, hne⟩ := h paramName (List.mem_cons_self _ _)
            cases hf
            exact absurd hg hne
        | some v =>
          simp only [genericHandler, if_true, hm, hg]
          rw [ih, hm]
          constructor
          · intro h p hp
            rcases List.mem_cons.1 hp with heq | hmem
            · cases heq
              exact ⟨argsMap, rfl, by simp [hg]⟩
            · exact h p hmem
          · intro h p hp
            exact h p (List.mem_cons_of_mem _ hp)

/-- An error of the closure names its cause: arguments that are not a map, or a
binding marked required whose key the argument map lacks. -/
theorem genericHandler_error (toolName : String) (visit : List (String × Bool))
    (arguments : Any) (msg : String)
    (h : genericHandler toolName visit arguments = Outcome.error msg) :
    (asMap arguments = none ∧ msg = "invalid arguments format" ∧ ∃ p, (p, true) ∈ visit) ∨
      ∃ fields p, asMap arguments = some fields ∧ (p, true) ∈ visit ∧
        mapGet fields p = none ∧ msg = "missing required parameter: " ++ p := by
  induction visit with
  | nil => simp [genericHandler] at h
  | cons b rest ih =>
    obtain ⟨paramName, isRequired⟩ := b
    cases isRequired with
    | false =>
      simp only [genericHandler, Bool.false_eq_true, if_false] at h
      rcases ih h with ⟨h1, h2, p, hp⟩ | ⟨fields, p, h1, hp, h3, h4⟩
      · exact Or.inl ⟨h1, h2, p, List.mem_cons_of_mem _ hp⟩
      · exact Or.inr ⟨fields, p, h1, List.mem_cons_of_mem _ hp, h3, h4⟩
    | true =>
      cases hm : asMap arguments with
      | none =>
        simp only [genericHandler, if_true, hm, Outcome.error.injEq] at h
        exact Or.inl ⟨rfl, h.symm, paramName, List.mem_cons_self _ _⟩
      | some argsMap =>
        cases hg : mapGet argsMap paramName with
        | none =>
          simp only [genericHandler, if_true, hm, hg, Outcome.error.injEq] at h
          exact Or.inr ⟨argsMap, paramName, rfl, List.mem_cons_self _ _, hg, h.symm⟩
        | some v =>
          simp only [genericHandler, if_true, hm, hg] at h
          rcases ih h with ⟨h1, _, _, _⟩ | ⟨fields, p, h1, hp, h3, h4⟩
          · rw [hm] at h1; cases h1
          · exact Or.inr ⟨fields, p, hm ▸ h1, List.mem_cons_of_mem _ hp, h3, h4⟩


/-! ## Auxiliary facts about the registry -/

theorem asMap_eq_some {arguments : Any} {fields : List (String × Any)}
    (h : asMap arguments = some fields) : arguments = Any.obj fields := by
  cases arguments <;> simp [asMap] at h
  rw [h]

theorem asString_eq_some {v : Any} {t : String} (h : asString v = some t) : v = Any.str t := by
  cases v <;> simp [asString] at h
  rw [h]

/-- A call of `addToolHandler` either leaves the registry alone and returns no
result, or went through all four checks and registered the new tool. -/
theorem addToolHandler_cases (unmarshal : String → Except String ParamList) (order : Shuffle)
    (s : Registry) (arguments : Any) :
    ((addToolHandler unmarshal order s arguments).1 = s ∧
        ∀ r, (addToolHandler unmarshal order s arguments).2 ≠ Outcome.result r) ∨
      ∃ fields n d pl P, arguments = Any.obj fields ∧
        asString (mapIndex fields "toolName") = some n ∧
        asString (mapIndex fields "toolDesc") = some d ∧
        asString (mapIndex fields "paramList") = some pl ∧
        unmarshal pl = Except.ok P ∧
        addToolHandler unmarshal order s arguments =
          (AddTool s (NewTool n (toolOptions d (order.visit P))) (Handler.dynamic n P),
            Outcome.result (NewToolResultText (addedText n d))) := by
  cases hm : asMap arguments with
  | none => left; simp [addToolHandler, hm]
  | some fields =>
    cases hn : asString (mapIndex fields "toolName") with
    | none => left; simp [addToolHandler, hm, hn]
    | some n =>
      cases hd : asString (mapIndex fields "toolDesc") with
      | none => left; simp [addToolHandler, hm, hn, hd]
      | some d =>
        cases hp : asString (mapIndex fields "paramList") with
        | none => left; simp [addToolHandler, hm, hn, hd, hp]
        | some pl =>
          cases hu : unmarshal pl with
          | error err => left; simp [addToolHandler, hm, hn, hd, hp, hu]
          | ok P =>
            right
            exact ⟨fields, n, d, pl, P, asMap_eq_some hm, hn, hd, hp, hu, by
              simp [addToolHandler, hm, hn, hd, hp, hu]⟩

/-- A call of `deleteToolHandler` either leaves the registry alone and returns
no result, or removed the tool its `toolName` names. -/
theorem deleteToolHandler_cases (s : Registry) (arguments : Any) :
    ((deleteToolHandler s arguments).1 = s ∧
        ∀ r, (deleteToolHandler s arguments).2 ≠ Outcome.result r) ∨
      ∃ n, toolNameOf arguments = some n ∧
        deleteToolHandler s arguments =
          (DeleteTools s n,
            Outcome.result (NewToolResultText ("Tool " ++ n ++ " removed successfully!"))) := by
  cases hm : asMap arguments with
  | none => left; simp [deleteToolHandler, hm]
  | some fields =>
    cases hn : asString (mapIndex fields "toolName") with
    | none => left; simp [deleteToolHandler, hm, hn]
    | some n =>
      right
      exact ⟨n, by simp [toolNameOf, hm, hn], by simp [deleteToolHandler, hm, hn]⟩

theorem toolNameOf_obj {fields : List (String × Any)} {n : String}
    (h : asString (mapIndex fields "toolName") = some n) :
    toolNameOf (Any.obj fields) = some n := by
  simp [toolNameOf, asMap, h]

/-- What declaring one binding of `paramList` does to a tool. -/
theorem declare_apply (b : String × Bool) (t : Tool) :
    (if b.2 then WithString b.1 [Required] else WithString b.1 []) t =
      { t with contract := t.contract.filter (fun q => decide (q.name ≠ b.1)) ++
          [{ name := b.1, required := b.2, description := "" }] } := by
  obtain ⟨k, r⟩ := b
  cases r <;> simp [WithString, Required]

/-- Declaring the bindings of `paramList` keeps the name and the description. -/
theorem declare_all_name_description (visit : List (String × Bool)) (t : Tool) :
    ((visit.map (fun b => if b.2 then WithString b.1 [Required] else WithString b.1 [])).foldl
        (fun t o => o t) t).name = t.name ∧
      ((visit.map (fun b => if b.2 then WithString b.1 [Required] else WithString b.1 [])).foldl
        (fun t o => o t) t).description = t.description := by
  induction visit generalizing t with
  | nil => exact ⟨rfl, rfl⟩
  | cons b rest ih =>
    simp only [List.map_cons, List.foldl_cons]
    rw [declare_apply]
    exact ih _

/-- Declaring bindings with pairwise distinct keys, none of them declared
before, appends one contract parameter per binding. -/
theorem declare_all_contract (visit : List (String × Bool)) (t : Tool)
    (hnodup : (visit.map Prod.fst).Nodup)
    (hfresh : ∀ q ∈ t.contract, q.name ∉ visit.map Prod.fst) :
    ((visit.map (fun b => if b.2 then WithString b.1 [Required] else WithString b.1 [])).foldl
        (fun t o => o t) t).contract =
      t.contract ++
        visit.map (fun b => { name := b.1, required := b.2, description := "" }) := by
  induction visit generalizing t with
  | nil => simp
  | cons b rest ih =>
    simp only [List.map_cons, List.foldl_cons]
    rw [declare_apply]
    have hnd : b.1 ∉ rest.map Prod.fst ∧ (rest.map Prod.fst).Nodup := by
      rw [List.map_cons] at hnodup
      exact List.nodup_cons.1 hnodup
    have hkeep : t.contract.filter (fun q => decide (q.name ≠ b.1)) = t.contract := by
      apply List.filter_eq_self.2
      intro q hq
      have := hfresh q hq
      simp only [List.map_cons, List.mem_cons, not_or] at this
      simpa using this.1
    rw [ih _ hnd.2]
    · simp only [hkeep, List.append_assoc, List.singleton_append]
    · intro q hq
      simp only [hkeep, List.mem_append, List.mem_singleton] at hq
      rcases hq with hq | hq
      · have := hfresh q hq
        simp only [List.map_cons, List.mem_cons, not_or] at this
        exact this.2
      · rw [hq]; exact hnd.1

theorem NewTool_name (n d : String) (visit : List (String × Bool)) :
    (NewTool n (toolOptions d visit)).name = n := by
  simp only [NewTool, toolOptions, List.foldl_cons]
  exact (declare_all_name_description visit _).1

theorem NewTool_description (n d : String) (visit : List (String × Bool)) :
    (NewTool n (toolOptions d visit)).description = d := by
  simp only [NewTool, toolOptions, List.foldl_cons]
  exact (declare_all_name_description visit _).2

theorem NewTool_contract (n d : String) (visit : List (String × Bool))
    (hnodup : (visit.map Prod.fst).Nodup) :
    (NewTool n (toolOptions d visit)).contract =
      visit.map (fun b => { name := b.1, required := b.2, description := "" }) := by
  simp only [NewTool, toolOptions, List.foldl_cons]
  rw [declare_all_contract visit _ hnodup]
  · simp [WithDescription]
  · intro q hq
    simp [WithDescription] at hq

theorem dispatch_unknown (check : ParameterContract → Any → Option String)
    (unmarshal : String → Except String ParamList) (s : Registry) (c : Call)
    (hs : s c.name = none) :
    dispatch check unmarshal s c = (s, DispatchOutcome.unknownOperation c.name) := by
  simp [dispatch, hs]

theorem dispatch_rejected (check : ParameterContract → Any → Option String)
    (unmarshal : String → Except String ParamList) (s : Registry) (c : Call)
    (entry : ServerTool) (msg : String) (hs : s c.name = some entry)
    (hv : validateArguments check entry.tool.contract c.arguments = some msg) :
    dispatch check unmarshal s c = (s, DispatchOutcome.invalidArguments msg) := by
  simp [dispatch, hs, hv]

theorem dispatch_handled (check : ParameterContract → Any → Option String)
    (unmarshal : String → Except String ParamList) (s : Registry) (c : Call)
    (entry : ServerTool) (hs : s c.name = some entry)
    (hv : validateArguments check entry.tool.contract c.arguments = none) :
    dispatch check unmarshal s c =
      ((runHandler unmarshal entry.handler c.order s c.arguments).1,
        DispatchOutcome.handled (runHandler unmarshal entry.handler c.order s c.arguments).2) := by
  simp [dispatch, hs, hv]

/-- Serving a call changes the entry of a name only when the handler that ran
was `addToolHandler` or `deleteToolHandler` and the call's `toolName` is that
name. -/
theorem dispatch_frame (check : ParameterContract → Any → Option String)
    (unmarshal : String → Except String ParamList) (s : Registry) (c : Call) (k : String) :
    (dispatch check unmarshal s c).1 k = s k ∨
      ∃ entry, s c.name = some entry ∧ toolNameOf c.arguments = some k ∧
        ((entry.handler = Handler.addTool ∧ ∃ P,
            ((dispatch check unmarshal s c).1 k).map ServerTool.handler =
              some (Handler.dynamic k P)) ∨
          (entry.handler = Handler.deleteTool ∧ (dispatch check unmarshal s c).1 k = none)) := by
  cases hs : s c.name with
  | none => left; rw [dispatch_unknown check unmarshal s c hs]
  | some entry =>
    cases hv : validateArguments check entry.tool.contract c.arguments with
    | some msg => left; rw [dispatch_rejected check unmarshal s c entry msg hs hv]
    | none =>
      rw [dispatch_handled check unmarshal s c entry hs hv]
      cases hh : entry.handler with
      | hello => left; rfl
      | dynamic n P => left; rfl
      | addTool =>
        simp only [runHandler]
        rcases addToolHandler_cases unmarshal c.order s c.arguments with
          ⟨h1, _⟩ | ⟨fields, n, d, pl, P, ha, hn, _, _, _, heq⟩
        · left; rw [h1]
        · rw [heq]
          by_cases hk : k = n
          · right
            refine ⟨entry, rfl, ?_, Or.inl ⟨hh, P, ?_⟩⟩
            · rw [ha, hk]; exact toolNameOf_obj hn
            · simp [AddTool, NewTool_name, hk]
          · left
            simp [AddTool, NewTool_name, hk]
      | deleteTool =>
        simp only [runHandler]
        rcases deleteToolHandler_cases s c.arguments with ⟨h1, _⟩ | ⟨n, hn, heq⟩
        · left; rw [h1]
        · rw [heq]
          by_cases hk : k = n
          · right
            exact ⟨entry, rfl, by rw [hk]; exact hn, Or.inr ⟨hh, by simp [DeleteTools, hk]⟩⟩
          · left
            simp [DeleteTools, hk]

theorem wellBound_main : WellBound main := by
  intro k entry hk
  simp only [main, AddTool, NewMCPServer] at hk
  split at hk
  · rename_i h1
    cases hk
    refine ⟨fun h => (by cases h), fun _ => ?_⟩
    rw [h1]; exact NewTool_name "delete_tool" "delete_tool" []
  · split at hk
    · rename_i h2
      cases hk
      refine ⟨fun _ => ?_, fun h => (by cases h)⟩
      rw [h2]; exact NewTool_name "add_tool" "add_tool" []
    · split at hk
      · cases hk
        exact ⟨fun h => (by cases h), fun h => (by cases h)⟩
      · cases hk

theorem wellBound_dispatch (check : ParameterContract → Any → Option String)
    (unmarshal : String → Except String ParamList) (s : Registry) (c : Call)
    (hs : WellBound s) : WellBound (dispatch check unmarshal s c).1 := by
  intro k entry hk
  rcases dispatch_frame check unmarshal s c k with h | ⟨e, _, _, ⟨_, P, hP⟩ | ⟨_, hnone⟩⟩
  · rw [h] at hk
    exact hs k entry hk
  · rw [hk] at hP
    simp only [Option.map_some', Option.some.injEq] at hP
    rw [hP]
    exact ⟨fun h => (by cases h), fun h => (by cases h)⟩
  · rw [hnone] at hk
    cases hk

theorem wellBound_run (check : ParameterContract → Any → Option String)
    (unmarshal : String → Except String ParamList) (cs : List Call) (s : Registry)
    (hs : WellBound s) : WellBound (run check unmarshal s cs) := by
  induction cs generalizing s with
  | nil => exact hs
  | cons c rest ih => exact ih _ (wellBound_dispatch check unmarshal s c hs)

/-- In a well-bound registry a call that neither defines nor revokes `k` leaves
the entry of `k` as it was. -/
theorem dispatch_keeps (check : ParameterContract → Any → Option String)
    (unmarshal : String → Except String ParamList) (s : Registry) (c : Call) (k : String)
    (hs : WellBound s) (hdef : ¬ c.defines k) (hrev : ¬ c.revokes k) :
    (dispatch check unmarshal s c).1 k = s k := by
  rcases dispatch_frame check unmarshal s c k with h | ⟨e, he, hn, ⟨hadd, _⟩ | ⟨hdel, _⟩⟩
  · exact h
  · exact absurd ⟨(hs c.name e he).1 hadd, hn⟩ hdef
  · exact absurd ⟨(hs c.name e he).2 hdel, hn⟩ hrev

/-- In a well-bound registry a call that does not define `k` leaves `k` absent
if it was. -/
theorem dispatch_stays_absent (check : ParameterContract → Any → Option String)
    (unmarshal : String → Except String ParamList) (s : Registry) (c : Call) (k : String)
    (hs : WellBound s) (hdef : ¬ c.defines k) (habs : s k = none) :
    (dispatch check unmarshal s c).1 k = none := by
  rcases dispatch_frame check unmarshal s c k with h | ⟨e, he, hn, ⟨hadd, _⟩ | ⟨_, hnone⟩⟩
  · rw [h]; exact habs
  · exact absurd ⟨(hs c.name e he).1 hadd, hn⟩ hdef
  · exact hnone

theorem run_keeps (check : ParameterContract → Any → Option String)
    (unmarshal : String → Except String ParamList) (cs : List Call) (s : Registry) (k : String)
    (hs : WellBound s) (hcs : ∀ c ∈ cs, ¬ c.defines k ∧ ¬ c.revokes k) :
    run check unmarshal s cs k = s k := by
  induction cs generalizing s with
  | nil => rfl
  | cons c rest ih =>
    have hc := hcs c (List.mem_cons_self _ _)
    simp only [run]
    rw [ih _ (wellBound_dispatch check unmarshal s c hs)
      (fun c2 h2 => hcs c2 (List.mem_cons_of_mem _ h2))]
    exact dispatch_keeps check unmarshal s c k hs hc.1 hc.2

theorem run_stays_absent (check : ParameterContract → Any → Option String)
    (unmarshal : String → Except String ParamList) (cs : List Call) (s : Registry) (k : String)
    (hs : WellBound s) (hcs : ∀ c ∈ cs, ¬ c.defines k) (habs : s k = none) :
    run check unmarshal s cs k = none := by
  induction cs generalizing s with
  | nil => exact habs
  | cons c rest ih =>
    simp only [run]
    exact ih _ (wellBound_dispatch check unmarshal s c hs)
      (fun c2 h2 => hcs c2 (List.mem_cons_of_mem _ h2))
      (dispatch_stays_absent check unmarshal s c k hs (hcs c (List.mem_cons_self _ _)) habs)

theorem wellBound_AddTool_dynamic (s : Registry) (tool : Tool) (n : String) (P : ParamList)
    (hs : WellBound s) : WellBound (AddTool s tool (Handler.dynamic n P)) := by
  intro k entry hk
  simp only [AddTool] at hk
  split at hk
  · cases hk
    exact ⟨fun h => (by cases h), fun h => (by cases h)⟩
  · exact hs k entry hk

theorem wellBound_DeleteTools (s : Registry) (n : String) (hs : WellBound s) :
    WellBound (DeleteTools s n) := by
  intro k entry hk
  simp only [DeleteTools] at hk
  split at hk
  · cases hk
  · exact hs k entry hk

/-- The closure fails on an argument map that lacks a key its loop meets marked
required. -/
theorem genericHandler_fails_of_absent (toolName : String) (visit : List (String × Bool))
    (fields : List (String × Any)) (p : String) (hp : (p, true) ∈ visit)
    (habs : mapGet fields p = none) :
    ∃ msg, genericHandler toolName visit (Any.obj fields) = Outcome.error msg := by
  rcases genericHandler_total toolName visit (Any.obj fields) with hres | herr
  · exfalso
    obtain ⟨fields2, hf, hne⟩ := (genericHandler_result_iff toolName visit _).1 hres p hp
    simp only [asMap, Option.some.injEq] at hf
    subst hf
    exact hne habs
  · exact herr

/-- The closure looks only at which required keys the argument map has: two
argument maps with the same required keys present get the same outcome from the
same loop order, whatever values they hold. -/
theorem genericHandler_congr (toolName : String) (visit : List (String × Bool))
    (fields1 fields2 : List (String × Any))
    (h : ∀ p, (p, true) ∈ visit → (mapGet fields1 p = none ↔ mapGet fields2 p = none)) :
    genericHandler toolName visit (Any.obj fields1) =
      genericHandler toolName visit (Any.obj fields2) := by
  induction visit with
  | nil => rfl
  | cons b rest ih =>
    obtain ⟨paramName, isRequired⟩ := b
    have ih2 := ih (fun p hp => h p (List.mem_cons_of_mem _ hp))
    cases isRequired with
    | false => simpa [genericHandler] using ih2
    | true =>
      have hp := h paramName (List.mem_cons_self _ _)
      cases h1 : mapGet fields1 paramName with
      | none =>
        have h2 := hp.1 h1
        simp [genericHandler, asMap, h1, h2]
      | some v1 =>
        cases h2 : mapGet fields2 paramName with
        | none => rw [hp.2 h2] at h1; cases h1
        | some v2 => simpa [genericHandler, asMap, h1, h2] using ih2

theorem addToolHandler_ok (unmarshal : String → Except String ParamList) (order : Shuffle)
    (s : Registry) (fields : List (String × Any)) (n d pl : String) (P : ParamList)
    (hn : mapGet fields "toolName" = some (Any.str n))
    (hd : mapGet fields "toolDesc" = some (Any.str d))
    (hp : mapGet fields "paramList" = some (Any.str pl))
    (hu : unmarshal pl = Except.ok P) :
    addToolHandler unmarshal order s (Any.obj fields) =
      (AddTool s (NewTool n (toolOptions d (order.visit P))) (Handler.dynamic n P),
        Outcome.result (NewToolResultText (addedText n d))) := by
  simp [addToolHandler, asMap, mapIndex_of_get hn, mapIndex_of_get hd, mapIndex_of_get hp,
    asString, hu]

theorem deleteToolHandler_ok (s : Registry) (fields : List (String × Any)) (n : String)
    (hn : mapGet fields "toolName" = some (Any.str n)) :
    deleteToolHandler s (Any.obj fields) =
      (DeleteTools s n,
        Outcome.result (NewToolResultText ("Tool " ++ n ++ " removed successfully!"))) := by
  simp [deleteToolHandler, asMap, mapIndex_of_get hn, asString]

/-! ## The greeting handler -/

/-- C1: when the arguments map of a `hello_world` call binds "name" to a string
`v` (the empty string included), `helloHandler` returns no error but a result
with the single text item "Hello, v!, This is from your go mcp server", and that
text contains `v`. -/
theorem C1_hello_greets (fields : List (String × Any)) (v : String)
    (h : mapGet fields "name" = some (Any.str v)) :
    helloHandler (Any.obj fields) =
        Outcome.result
          { content := [Content.text ("Hello, " ++ v ++ "!, This is from your go mcp server")],
            isError := false } ∧
      v.data <:+: ("Hello, " ++ v ++ "!, This is from your go mcp server").data := by
  refine ⟨?_, ?_⟩
  · simp [helloHandler, asMap, mapIndex_of_get h, asString, NewToolResultText]
  · refine ⟨"Hello, ".data, "!, This is from your go mcp server".data, ?_⟩
    simp [String.data_append]

/-- The greeting for the name of the test, and for the empty name. -/
theorem C1_hello_greets_witness :
    (mapGet [("name", Any.str "Vi_error")] "name" = some (Any.str "Vi_error") ∧
      helloHandler (Any.obj [("name", Any.str "Vi_error")]) =
        Outcome.result
          { content := [Content.text "Hello, Vi_error!, This is from your go mcp server"],
            isError := false }) ∧
    helloHandler (Any.obj [("name", Any.str "")]) =
      Outcome.result
        { content := [Content.text "Hello, !, This is from your go mcp server"],
          isError := false } :=
  ⟨⟨rfl, (C1_hello_greets [("name", Any.str "Vi_error")] "Vi_error" rfl).1⟩,
    (C1_hello_greets [("name", Any.str "")] "" rfl).1⟩

/-! ## The handler of a dynamically defined operation -/

/-- C4: for an operation defined by `add_tool` with parameter map `P`, the
generic handler fails exactly when `P` marks some parameter required and either
the arguments are not a string-keyed map or some required name is absent from
them. A failure on a map is "missing required parameter: p" for a `p` that `P`
marks required and the map lacks; a failure on a non-map is "invalid arguments
format". A failing call returns no acknowledgment, and the handler never panics.
This holds whatever order the loop visits `P` in. -/
theorem C4_generic_fails_iff (toolName : String) (P : ParamList) (order : Shuffle)
    (arguments : Any) :
    ((∃ msg, genericHandler toolName (order.visit P) arguments = Outcome.error msg) ↔
        (∃ p, (p, true) ∈ P) ∧
          (asMap arguments = none ∨
            ∃ fields p, asMap arguments = some fields ∧ (p, true) ∈ P ∧
              mapGet fields p = none)) ∧
      (∀ fields msg, asMap arguments = some fields →
        genericHandler toolName (order.visit P) arguments = Outcome.error msg →
        ∃ p, (p, true) ∈ P ∧ mapGet fields p = none ∧
          msg = "missing required parameter: " ++ p) ∧
      (∀ msg, asMap arguments = none →
        genericHandler toolName (order.visit P) arguments = Outcome.error msg →
        msg = "invalid arguments format") ∧
      (∀ msg, genericHandler toolName (order.visit P) arguments = Outcome.error msg →
        ∀ r, genericHandler toolName (order.visit P) arguments ≠ Outcome.result r) ∧
      genericHandler toolName (order.visit P) arguments ≠ Outcome.panicked := by
  have hmem : ∀ p, (p, true) ∈ order.visit P ↔ (p, true) ∈ P :=
    fun p => (order.perm P).mem_iff
  refine ⟨⟨?_, ?_⟩, ?_, ?_, ?_, ?_⟩
  · rintro ⟨msg, hmsg⟩
    rcases genericHandler_error _ _ _ _ hmsg with ⟨h1, _, p, hp⟩ | ⟨fields, p, h1, hp, h3, _⟩
    · exact ⟨⟨p, (hmem p).1 hp⟩, Or.inl h1⟩
    · exact ⟨⟨p, (hmem p).1 hp⟩, Or.inr ⟨fields, p, h1, (hmem p).1 hp, h3⟩⟩
  · rintro ⟨⟨q, hq⟩, hbad⟩
    rcases genericHandler_total toolName (order.visit P) arguments with hres | herr
    · exfalso
      rw [genericHandler_result_iff] at hres
      rcases hbad with hnone | ⟨fields, p, hf, hp, habs⟩
      · obtain ⟨fields, hf, _⟩ := hres q ((hmem q).2 hq)
        rw [hnone] at hf; cases hf
      · obtain ⟨fields2, hf2, hne⟩ := hres p ((hmem p).2 hp)
        rw [hf] at hf2; cases hf2
        exact hne habs
    · exact herr
  · intro fields msg hf hmsg
    rcases genericHandler_error _ _ _ _ hmsg with ⟨h1, _, _, _⟩ | ⟨fields2, p, h1, hp, h3, h4⟩
    · rw [hf] at h1; cases h1
    · rw [hf] at h1; cases h1
      exact ⟨p, (hmem p).1 hp, h3, h4⟩
  · intro msg hnone hmsg
    rcases genericHandler_error _ _ _ _ hmsg with ⟨_, h2, _, _⟩ | ⟨fields2, p, h1, _, _, _⟩
    · exact h2
    · rw [hnone] at h1; cases h1
  · intro msg hmsg r hr
    rw [hmsg] at hr; cases hr
  · intro hp
    rcases genericHandler_total toolName (order.visit P) arguments with hres | ⟨msg, herr⟩
    · rw [hres] at hp; cases hp
    · rw [herr] at hp; cases hp

/-- The operation of the test, called without its required parameter and with
arguments that are not a map. -/
theorem C4_generic_fails_iff_witness :
    genericHandler "dynamic_tool" (Shuffle.backwards.visit [("param1", true), ("param2", false)])
        (Any.obj [("param2", Any.str "x")]) =
      Outcome.error "missing required parameter: param1" ∧
    (∃ p, (p, true) ∈ [("param1", true), ("param2", false)] ∧
      mapGet [("param2", Any.str "x")] p = none ∧
      "missing required parameter: param1" = "missing required parameter: " ++ p) ∧
    genericHandler "dynamic_tool" (Shuffle.inOrder.visit [("param1", true), ("param2", false)])
        Any.null = Outcome.error "invalid arguments format" :=
  ⟨rfl,
    (C4_generic_fails_iff "dynamic_tool" [("param1", true), ("param2", false)]
      Shuffle.backwards (Any.obj [("param2", Any.str "x")])).2.1 _ _ rfl rfl,
    rfl⟩

/-- C5: omitting an optional parameter is never an error. For an operation
defined by `add_tool` with name `n` and parameter map `P`, a call whose argument
map has every parameter `P` marks required, or any call at all when `P` marks
none required, succeeds with the fixed text "Tool n executed successfully!
Response: this answer is from your go mcp server", whichever other keys are
present or absent and in whatever order the loop visits `P`. -/
theorem C5_optional_may_be_omitted (n : String) (P : ParamList) (order : Shuffle)
    (arguments : Any)
    (h : (∀ p, (p, true) ∉ P) ∨
      ∃ fields, arguments = Any.obj fields ∧ ∀ p, (p, true) ∈ P → mapGet fields p ≠ none) :
    genericHandler n (order.visit P) arguments =
      Outcome.result
        { content := [Content.text ("Tool " ++ n ++
            " executed successfully! Response: this answer is from your go mcp server")],
          isError := false } := by
  have hmem : ∀ p, (p, true) ∈ order.visit P ↔ (p, true) ∈ P :=
    fun p => (order.perm P).mem_iff
  rw [← executedText_eq]
  refine (genericHandler_result_iff n (order.visit P) arguments).2 ?_
  intro p hp
  rcases h with hnone | ⟨fields, rfl, hall⟩
  · exact absurd ((hmem p).1 hp) (hnone p)
  · exact ⟨fields, rfl, hall p ((hmem p).1 hp)⟩

/-- The calls of the test and of the spec: the required parameter supplied and
the optional one omitted; an operation with one optional parameter called with
it and with empty arguments. -/
theorem C5_optional_may_be_omitted_witness :
    genericHandler "dynamic_tool" (Shuffle.inOrder.visit [("param1", true), ("param2", false)])
        (Any.obj [("param1", Any.str "value1")]) =
      Outcome.result
        { content := [Content.text ("Tool " ++ "dynamic_tool" ++
            " executed successfully! Response: this answer is from your go mcp server")],
          isError := false } ∧
    genericHandler "echo" (Shuffle.inOrder.visit [("msg", false)]) (Any.obj []) =
      Outcome.result
        { content := [Content.text ("Tool " ++ "echo" ++
            " executed successfully! Response: this answer is from your go mcp server")],
          isError := false } :=
  ⟨C5_optional_may_be_omitted "dynamic_tool" [("param1", true), ("param2", false)]
      Shuffle.inOrder (Any.obj [("param1", Any.str "value1")])
      (Or.inr ⟨[("param1", Any.str "value1")], rfl, by
        intro p hp
        have hp1 : p = "param1" := by simpa using hp
        subst hp1
        simp [mapGet]⟩),
    C5_optional_may_be_omitted "echo" [("msg", false)] Shuffle.inOrder (Any.obj [])
      (Or.inl (by intro p hp; simp at hp))⟩

/-- C9: when the arguments map of a `hello_world` call has no "name" key the
call fails: the handler returns the error "name must be a string", whose text
opens with the parameter name "name", and returns no greeting. The same holds
for the handler of the SSE and stdio servers. -/
theorem C9_hello_missing_name (fields : List (String × Any))
    (h : mapGet fields "name" = none) :
    helloHandler (Any.obj fields) = Outcome.error "name must be a string" ∧
      SSE.helloHandler fields = Outcome.error "name must be a string" ∧
      "name".data <+: "name must be a string".data ∧
      (∀ r, helloHandler (Any.obj fields) ≠ Outcome.result r) ∧
      (∀ r, SSE.helloHandler fields ≠ Outcome.result r) := by
  have h1 : helloHandler (Any.obj fields) = Outcome.error "name must be a string" := by
    simp [helloHandler, asMap, mapIndex_of_absent h, asString]
  have h2 : SSE.helloHandler fields = Outcome.error "name must be a string" := by
    simp [SSE.helloHandler, mapIndex_of_absent h, asString]
  refine ⟨h1, h2, ⟨" must be a string".data, rfl⟩, ?_, ?_⟩
  · intro r hr; rw [h1] at hr; cases hr
  · intro r hr; rw [h2] at hr; cases hr

/-- The call with empty arguments, and one that carries only another key. -/
theorem C9_hello_missing_name_witness :
    (mapGet [] "name" = none ∧
      helloHandler (Any.obj []) = Outcome.error "name must be a string") ∧
    SSE.helloHandler [("nom", Any.str "Ada")] = Outcome.error "name must be a string" :=
  ⟨⟨rfl, (C9_hello_missing_name [] rfl).1⟩,
    (C9_hello_missing_name [("nom", Any.str "Ada")] rfl).2.1⟩


/-! ## The registry-changing handlers -/

/-- C2: `add_tool` is atomic on failure. Whenever `addToolHandler` returns an
error the registry after the call is the registry before it. On an argument map
it returns an error exactly when "toolName", "toolDesc" or "paramList" is absent
or not a string, or the text of "paramList" does not decode. -/
theorem C2_add_tool_failure_atomic (unmarshal : String → Except String ParamList)
    (order : Shuffle) (s : Registry) (arguments : Any) :
    (∀ msg, (addToolHandler unmarshal order s arguments).2 = Outcome.error msg →
        (addToolHandler unmarshal order s arguments).1 = s) ∧
      ∀ fields, arguments = Any.obj fields →
        ((∃ msg, (addToolHandler unmarshal order s arguments).2 = Outcome.error msg) ↔
          (asString (mapIndex fields "toolName") = none ∨
            asString (mapIndex fields "toolDesc") = none ∨
            asString (mapIndex fields "paramList") = none ∨
            ∃ pl err, asString (mapIndex fields "paramList") = some pl ∧
              unmarshal pl = Except.error err)) := by
  refine ⟨?_, ?_⟩
  · intro msg hmsg
    rcases addToolHandler_cases unmarshal order s arguments with
      ⟨h1, _⟩ | ⟨_, _, _, _, _, _, _, _, _, _, heq⟩
    · exact h1
    · rw [heq] at hmsg; cases hmsg
  · rintro fields rfl
    cases hn : asString (mapIndex fields "toolName") with
    | none => simp [addToolHandler, asMap, hn]
    | some n =>
      cases hd : asString (mapIndex fields "toolDesc") with
      | none => simp [addToolHandler, asMap, hn, hd]
      | some d =>
        cases hp : asString (mapIndex fields "paramList") with
        | none => simp [addToolHandler, asMap, hn, hd, hp]
        | some pl =>
          cases hu : unmarshal pl with
          | error err => simp [addToolHandler, asMap, hn, hd, hp, hu]
          | ok P => simp [addToolHandler, asMap, hn, hd, hp, hu]

/-- An `add_tool` call whose parameter specification is not an object of
booleans fails and leaves the registry of `main` as it is. -/
theorem C2_add_tool_failure_atomic_witness :
    (addToolHandler decodeFlags Shuffle.inOrder main
        (Any.obj [("toolName", Any.str "t"), ("toolDesc", Any.str "d"),
          ("paramList", Any.str "[1, 2]")])).2 =
      Outcome.error
        "failed to parse paramList: cannot unmarshal into Go value of type map[string]bool" ∧
    (addToolHandler decodeFlags Shuffle.inOrder main
        (Any.obj [("toolName", Any.str "t"), ("toolDesc", Any.str "d"),
          ("paramList", Any.str "[1, 2]")])).1 = main :=
  ⟨rfl,
    (C2_add_tool_failure_atomic decodeFlags Shuffle.inOrder main
      (Any.obj [("toolName", Any.str "t"), ("toolDesc", Any.str "d"),
        ("paramList", Any.str "[1, 2]")])).1 _ rfl⟩

/-- C3: for a string `toolName` n, a string `toolDesc` d and a `paramList` that
decodes to a map `P`, `add_tool` succeeds with the text "Tool n with description
'd' and parameters added successfully!", and afterwards n is registered with
description d, a contract whose parameter names are exactly the keys of `P`,
each required exactly when `P` maps it to true, and the generic handler for n
and `P`. In a registry where the built-in handlers sit under their own names
this entry stays as it is through every sequence of calls that holds no
`add_tool` and no `delete_tool` call whose `toolName` is n. -/
theorem C3_add_tool_registers (check : ParameterContract → Any → Option String)
    (unmarshal : String → Except String ParamList) (order : Shuffle) (s : Registry)
    (fields : List (String × Any)) (n d pl : String) (P : ParamList)
    (hn : mapGet fields "toolName" = some (Any.str n))
    (hd : mapGet fields "toolDesc" = some (Any.str d))
    (hp : mapGet fields "paramList" = some (Any.str pl))
    (hu : unmarshal pl = Except.ok P) (hP : P.WellFormed) :
    (addToolHandler unmarshal order s (Any.obj fields)).2 =
        Outcome.result
          { content := [Content.text ("Tool " ++ n ++ " with description \x27" ++ d ++
              "\x27 and parameters added successfully!")],
            isError := false } ∧
      ∃ entry, (addToolHandler unmarshal order s (Any.obj fields)).1 n = some entry ∧
        entry.tool.name = n ∧ entry.tool.description = d ∧
        (∀ p, p ∈ entry.tool.contract.map ParameterContract.name ↔ p ∈ P.map Prod.fst) ∧
        (∀ q ∈ entry.tool.contract, (q.required = true ↔ (q.name, true) ∈ P)) ∧
        (entry.tool.contract.map ParameterContract.name).Nodup ∧
        entry.handler = Handler.dynamic n P ∧
        (WellBound s → ∀ cs : List Call, (∀ c ∈ cs, ¬ c.defines n ∧ ¬ c.revokes n) →
          run check unmarshal (addToolHandler unmarshal order s (Any.obj fields)).1 cs n =
            some entry) := by
  have hok := addToolHandler_ok unmarshal order s fields n d pl P hn hd hp hu
  have hvisit : ((order.visit P).map Prod.fst).Nodup :=
    (((order.perm P).map Prod.fst).nodup_iff).2 hP
  have hcontract := NewTool_contract n d (order.visit P) hvisit
  rw [hok]
  refine ⟨rfl, ⟨NewTool n (toolOptions d (order.visit P)), Handler.dynamic n P⟩, ?_,
    NewTool_name n d _, NewTool_description n d _, ?_, ?_, ?_, rfl, ?_⟩
  · simp [AddTool, NewTool_name]
  · intro p
    simp only [hcontract, List.map_map]
    have hfun : (ParameterContract.name ∘
        fun b : String × Bool => { name := b.1, required := b.2, description := "" }) =
        Prod.fst := rfl
    rw [hfun]
    exact ((order.perm P).map Prod.fst).mem_iff
  · intro q hq
    simp only [hcontract, List.mem_map] at hq
    obtain ⟨b, hb, rfl⟩ := hq
    obtain ⟨k, r⟩ := b
    have hbP : (k, r) ∈ P := (order.perm P).mem_iff.1 hb
    constructor
    · intro hr
      simp only at hr
      rw [hr] at hbP
      exact hbP
    · intro hkt
      simp only at hkt ⊢
      cases r with
      | true => rfl
      | false =>
        exfalso
        have hinj := List.inj_on_of_nodup_map hP hbP hkt rfl
        cases hinj
  · simp only [hcontract, List.map_map]
    exact hvisit
  · intro hs cs hcs
    rw [run_keeps check unmarshal cs _ n (wellBound_AddTool_dynamic s _ n P hs) hcs]
    simp [AddTool, NewTool_name]

/-- The `add_tool` call of the test on the registry of `main`. -/
theorem C3_add_tool_registers_witness :
    (decodeFlags Scenario.paramListText = Except.ok [("param1", true), ("param2", false)] ∧
      ParamList.WellFormed [("param1", true), ("param2", false)]) ∧
    (addToolHandler decodeFlags Shuffle.backwards main
        (Any.obj Scenario.addDynamicToolFields)).2 =
      Outcome.result
        { content := [Content.text ("Tool " ++ "dynamic_tool" ++ " with description \x27" ++
            "A dynamically added tool" ++ "\x27 and parameters added successfully!")],
          isError := false } :=
  ⟨⟨rfl, by decide⟩,
    (C3_add_tool_registers noCheck decodeFlags Shuffle.backwards main
      Scenario.addDynamicToolFields "dynamic_tool" "A dynamically added tool"
      Scenario.paramListText [("param1", true), ("param2", false)] rfl rfl rfl rfl
      (by decide)).1⟩

/-- C6: `delete_tool` always succeeds and is idempotent. For every string
`toolName` n and every registry, whether or not n is registered,
`deleteToolHandler` returns no error but the text "Tool n removed successfully!";
a second call in a row returns the same result, the registry after the second
call is the registry after the first, and n is absent from it. Entries under
other names are untouched. -/
theorem C6_delete_tool_idempotent (s : Registry) (fields : List (String × Any)) (n : String)
    (hn : mapGet fields "toolName" = some (Any.str n)) :
    (deleteToolHandler s (Any.obj fields)).2 =
        Outcome.result
          { content := [Content.text ("Tool " ++ n ++ " removed successfully!")],
            isError := false } ∧
      (deleteToolHandler (deleteToolHandler s (Any.obj fields)).1 (Any.obj fields)).2 =
        (deleteToolHandler s (Any.obj fields)).2 ∧
      (deleteToolHandler (deleteToolHandler s (Any.obj fields)).1 (Any.obj fields)).1 =
        (deleteToolHandler s (Any.obj fields)).1 ∧
      (deleteToolHandler s (Any.obj fields)).1 n = none ∧
      ∀ k, k ≠ n → (deleteToolHandler s (Any.obj fields)).1 k = s k := by
  rw [deleteToolHandler_ok s fields n hn, deleteToolHandler_ok _ fields n hn]
  refine ⟨rfl, rfl, ?_, ?_, ?_⟩
  · funext k
    by_cases hk : k = n <;> simp [DeleteTools, hk]
  · simp [DeleteTools]
  · intro k hk
    simp [DeleteTools, hk]

/-- Deleting a name that was never registered, and deleting the tool of the
test after it was added. -/
theorem C6_delete_tool_idempotent_witness :
    (main "ghost" = none ∧
      (deleteToolHandler main (Any.obj [("toolName", Any.str "ghost")])).2 =
        Outcome.result
          { content := [Content.text ("Tool " ++ "ghost" ++ " removed successfully!")],
            isError := false }) ∧
    (deleteToolHandler
        (addToolHandler decodeFlags Shuffle.inOrder main
          (Any.obj Scenario.addDynamicToolFields)).1
        (Any.obj [("toolName", Any.str "dynamic_tool")])).1 "dynamic_tool" = none :=
  ⟨⟨rfl, (C6_delete_tool_idempotent main [("toolName", Any.str "ghost")] "ghost" rfl).1⟩,
    (C6_delete_tool_idempotent _ [("toolName", Any.str "dynamic_tool")] "dynamic_tool"
      rfl).2.2.2.1⟩

/-- C8: re-definition is last-write-wins with no merge. After two successful
`add_tool` calls for the same `toolName` n, with descriptions d1, d2 and
parameter maps P1, P2, the registry holds for n the entry the second call alone
would have stored: its description is d2, its contract is that of P2, its
handler is the generic handler for P2. Every later call of that handler is
decided by P2 alone: it succeeds when the arguments have every parameter P2
marks required, whether or not they have those of P1, and it fails when they
lack one that P2 marks required. -/
theorem C8_redefinition_last_write_wins (unmarshal : String → Except String ParamList)
    (order1 order2 : Shuffle) (s : Registry) (fields1 fields2 : List (String × Any))
    (n d1 d2 pl1 pl2 : String) (P1 P2 : ParamList)
    (hn1 : mapGet fields1 "toolName" = some (Any.str n))
    (hd1 : mapGet fields1 "toolDesc" = some (Any.str d1))
    (hp1 : mapGet fields1 "paramList" = some (Any.str pl1))
    (hu1 : unmarshal pl1 = Except.ok P1)
    (hn2 : mapGet fields2 "toolName" = some (Any.str n))
    (hd2 : mapGet fields2 "toolDesc" = some (Any.str d2))
    (hp2 : mapGet fields2 "paramList" = some (Any.str pl2))
    (hu2 : unmarshal pl2 = Except.ok P2) (hP2 : P2.WellFormed) :
    ∃ entry,
      (addToolHandler unmarshal order2
          (addToolHandler unmarshal order1 s (Any.obj fields1)).1 (Any.obj fields2)).1 n =
        some entry ∧
      (addToolHandler unmarshal order2 NewMCPServer (Any.obj fields2)).1 n = some entry ∧
      entry.tool.name = n ∧ entry.tool.description = d2 ∧
      (∀ p r, (∃ q ∈ entry.tool.contract, q.name = p ∧ q.required = r) ↔ (p, r) ∈ P2) ∧
      entry.handler = Handler.dynamic n P2 ∧
      (∀ (order : Shuffle) (s2 : Registry) (arguments : Any),
        runHandler unmarshal entry.handler order s2 arguments =
          (s2, genericHandler n (order.visit P2) arguments)) ∧
      (∀ (order : Shuffle) (s2 : Registry) (fields : List (String × Any)),
        (∀ p, (p, true) ∈ P2 → mapGet fields p ≠ none) →
        (runHandler unmarshal entry.handler order s2 (Any.obj fields)).2 =
          Outcome.result (NewToolResultText (executedText n))) ∧
      (∀ (order : Shuffle) (s2 : Registry) (fields : List (String × Any)) (p : String),
        (p, true) ∈ P2 → mapGet fields p = none →
        ∃ msg, (runHandler unmarshal entry.handler order s2 (Any.obj fields)).2 =
          Outcome.error msg) := by
  have hvisit : ((order2.visit P2).map Prod.fst).Nodup :=
    (((order2.perm P2).map Prod.fst).nodup_iff).2 hP2
  have hcontract := NewTool_contract n d2 (order2.visit P2) hvisit
  rw [addToolHandler_ok unmarshal order1 s fields1 n d1 pl1 P1 hn1 hd1 hp1 hu1,
    addToolHandler_ok unmarshal order2 _ fields2 n d2 pl2 P2 hn2 hd2 hp2 hu2,
    addToolHandler_ok unmarshal order2 _ fields2 n d2 pl2 P2 hn2 hd2 hp2 hu2]
  refine ⟨⟨NewTool n (toolOptions d2 (order2.visit P2)), Handler.dynamic n P2⟩, ?_, ?_,
    NewTool_name n d2 _, NewTool_description n d2 _, ?_, rfl, ?_, ?_, ?_⟩
  · simp [AddTool, NewTool_name]
  · simp [AddTool, NewTool_name]
  · intro p r
    simp only [hcontract, List.mem_map]
    constructor
    · rintro ⟨q, ⟨b, hb, rfl⟩, rfl, rfl⟩
      exact (order2.perm P2).mem_iff.1 hb
    · intro h
      exact ⟨_, ⟨(p, r), (order2.perm P2).mem_iff.2 h, rfl⟩, rfl, rfl⟩
  · intro order s2 arguments
    rfl
  · intro order s2 fields hall
    simp only [runHandler]
    refine (genericHandler_result_iff n _ _).2 ?_
    intro p hp
    exact ⟨fields, rfl, hall p ((order.perm P2).mem_iff.1 hp)⟩
  · intro order s2 fields p hp habs
    simp only [runHandler]
    exact genericHandler_fails_of_absent n _ fields p ((order.perm P2).mem_iff.2 hp) habs

/-- The tool "t" defined with required parameter "a" and then again with
required parameter "b": the entry is that of the second definition, a call with
"b" alone succeeds and a call with "a" alone fails for want of "b". -/
theorem C8_redefinition_last_write_wins_witness :
    (decodeFlags "\x7b\"a\": true\x7d" = Except.ok [("a", true)] ∧
      decodeFlags "\x7b\"b\": true\x7d" = Except.ok [("b", true)] ∧
      ParamList.WellFormed [("b", true)]) ∧
    (∃ entry,
      (addToolHandler decodeFlags Shuffle.inOrder
          (addToolHandler decodeFlags Shuffle.inOrder main
            (Any.obj [("toolName", Any.str "t"), ("toolDesc", Any.str "first"),
              ("paramList", Any.str "\x7b\"a\": true\x7d")])).1
          (Any.obj [("toolName", Any.str "t"), ("toolDesc", Any.str "second"),
            ("paramList", Any.str "\x7b\"b\": true\x7d")])).1 "t" = some entry ∧
      entry.tool.description = "second" ∧
      entry.handler = Handler.dynamic "t" [("b", true)]) ∧
    genericHandler "t" (Shuffle.inOrder.visit [("b", true)]) (Any.obj [("b", Any.str "x")]) =
      Outcome.result (NewToolResultText (executedText "t")) ∧
    genericHandler "t" (Shuffle.inOrder.visit [("b", true)]) (Any.obj [("a", Any.str "x")]) =
      Outcome.error "missing required parameter: b" :=
  ⟨⟨rfl, rfl, by decide⟩,
    (let ⟨entry, h1, _, _, h4, _, h6, _⟩ :=
      C8_redefinition_last_write_wins decodeFlags Shuffle.inOrder Shuffle.inOrder main
        [("toolName", Any.str "t"), ("toolDesc", Any.str "first"),
          ("paramList", Any.str "\x7b\"a\": true\x7d")]
        [("toolName", Any.str "t"), ("toolDesc", Any.str "second"),
          ("paramList", Any.str "\x7b\"b\": true\x7d")]
        "t" "first" "second" "\x7b\"a\": true\x7d" "\x7b\"b\": true\x7d"
        [("a", true)] [("b", true)] rfl rfl rfl rfl rfl rfl rfl rfl (by decide)
     ⟨entry, h1, h4, h6⟩),
    rfl, rfl⟩

/-! ## Calls to names without an entry -/

/-- C7, the claim as stated fails: after `add_tool` registered the name
"delete_tool" and a call `delete_tool` with `toolName` "delete_tool" returned, a
call of "delete_tool" does not fail with an unknown-operation error: the
redefined operation only acknowledged and removed nothing. This is so with no
validation in step 2 and with every check of required parameters. -/
theorem C7_counterexample :
    ((dispatch noCheck decodeFlags main Scenario.redefineDeleteTool).2 =
        DispatchOutcome.handled (Outcome.result (NewToolResultText
          (addedText "delete_tool" "redefined"))) ∧
      (dispatch noCheck decodeFlags
          (run noCheck decodeFlags main [Scenario.redefineDeleteTool])
          Scenario.deleteDeleteTool).2 =
        DispatchOutcome.handled (Outcome.result (NewToolResultText
          (executedText "delete_tool"))) ∧
      (dispatch noCheck decodeFlags
          (run noCheck decodeFlags main [Scenario.redefineDeleteTool, Scenario.deleteDeleteTool])
          Scenario.callDeleteTool).2 =
        DispatchOutcome.handled (Outcome.result (NewToolResultText
          (executedText "delete_tool")))) ∧
    ∀ check : ParameterContract → Any → Option String,
      (dispatch check decodeFlags main Scenario.redefineDeleteTool).2 =
          DispatchOutcome.handled (Outcome.result (NewToolResultText
            (addedText "delete_tool" "redefined"))) ∧
        (dispatch check decodeFlags
            (run check decodeFlags main [Scenario.redefineDeleteTool])
            Scenario.deleteDeleteTool).2 =
          DispatchOutcome.handled (Outcome.result (NewToolResultText
            (executedText "delete_tool"))) ∧
        (dispatch check decodeFlags
            (run check decodeFlags main
              [Scenario.redefineDeleteTool, Scenario.deleteDeleteTool])
            Scenario.callDeleteTool).2 ≠ DispatchOutcome.unknownOperation "delete_tool" :=
  ⟨⟨by decide, by decide, by decide⟩,
    fun _ => ⟨rfl, rfl, fun h => by cases h⟩⟩

/-- C7, amended: a call to a name with no current registry entry fails with an
unknown-operation error that carries the name, and the registry is as before (no
handler ran). In a registry where the built-in handlers sit under their own
names and "delete_tool" is still bound to `deleteToolHandler`, once a
`delete_tool` call with `toolName` n has returned a result, every call to n,
whatever its arguments, fails with that error, and keeps failing through every
sequence of calls that holds no `add_tool` call with `toolName` n. -/
theorem C7_unknown_operation (check : ParameterContract → Any → Option String)
    (unmarshal : String → Except String ParamList) (s1 : Registry) (del : Call) (n : String)
    (entry : ServerTool) (r : CallToolResult)
    (hs : WellBound s1) (hname : del.name = "delete_tool")
    (hbound : s1 "delete_tool" = some entry) (hh : entry.handler = Handler.deleteTool)
    (hn : toolNameOf del.arguments = some n)
    (hret : (dispatch check unmarshal s1 del).2 = DispatchOutcome.handled (Outcome.result r)) :
    (∀ (s : Registry) (c : Call), s c.name = none →
        dispatch check unmarshal s c = (s, DispatchOutcome.unknownOperation c.name)) ∧
      ∀ cs : List Call, (∀ c ∈ cs, ¬ c.defines n) → ∀ c : Call, c.name = n →
        dispatch check unmarshal (run check unmarshal (dispatch check unmarshal s1 del).1 cs) c =
          (run check unmarshal (dispatch check unmarshal s1 del).1 cs,
            DispatchOutcome.unknownOperation n) := by
  refine ⟨fun s c hc => dispatch_unknown check unmarshal s c hc, ?_⟩
  have hlook : s1 del.name = some entry := by rw [hname]; exact hbound
  have habsent : (dispatch check unmarshal s1 del).1 n = none := by
    cases hv : validateArguments check entry.tool.contract del.arguments with
    | some msg =>
      rw [dispatch_rejected check unmarshal s1 del entry msg hlook hv] at hret
      cases hret
    | none =>
      rw [dispatch_handled check unmarshal s1 del entry hlook hv, hh]
      simp only [runHandler]
      rcases deleteToolHandler_cases s1 del.arguments with ⟨_, hno⟩ | ⟨m, hm, heq⟩
      · exfalso
        rw [dispatch_handled check unmarshal s1 del entry hlook hv, hh] at hret
        simp only [runHandler, DispatchOutcome.handled.injEq] at hret
        exact hno r hret
      · rw [hn] at hm
        cases hm
        rw [heq]
        simp [DeleteTools]
  intro cs hcs c hc
  have hnone : run check unmarshal (dispatch check unmarshal s1 del).1 cs c.name = none := by
    rw [hc]
    exact run_stays_absent check unmarshal cs _ n
      (wellBound_dispatch check unmarshal s1 del hs) hcs habsent
  rw [dispatch_unknown check unmarshal _ c hnone, hc]


/-- The test's scenario: the new tool answers before the deletion, and after
the `delete_tool` call of the test the same call is an unknown operation. -/
theorem C7_unknown_operation_witness :
    ((run noCheck decodeFlags main [Scenario.addDynamicTool]) "delete_tool" =
        some Scenario.deleteEntry ∧
      toolNameOf Scenario.deleteDynamicTool.arguments = some "dynamic_tool" ∧
      (dispatch noCheck decodeFlags (run noCheck decodeFlags main [Scenario.addDynamicTool])
          Scenario.deleteDynamicTool).2 =
        DispatchOutcome.handled (Outcome.result
          (NewToolResultText "Tool dynamic_tool removed successfully!")) ∧
      (dispatch noCheck decodeFlags (run noCheck decodeFlags main [Scenario.addDynamicTool])
          Scenario.callDynamicTool).2 =
        DispatchOutcome.handled (Outcome.result
          (NewToolResultText (executedText "dynamic_tool")))) ∧
    (dispatch noCheck decodeFlags
        (run noCheck decodeFlags
          (dispatch noCheck decodeFlags (run noCheck decodeFlags main [Scenario.addDynamicTool])
            Scenario.deleteDynamicTool).1 [])
        Scenario.callDynamicTool).2 = DispatchOutcome.unknownOperation "dynamic_tool" :=
  ⟨⟨by decide, rfl, by decide, by decide⟩,
    congrArg Prod.snd
      ((C7_unknown_operation noCheck decodeFlags
        (run noCheck decodeFlags main [Scenario.addDynamicTool]) Scenario.deleteDynamicTool
        "dynamic_tool" Scenario.deleteEntry
        (NewToolResultText "Tool dynamic_tool removed successfully!")
        (wellBound_run noCheck decodeFlags _ main wellBound_main) rfl (by decide) rfl rfl
        (by decide)).2 [] (fun _ h => absurd h (List.not_mem_nil _))
        Scenario.callDynamicTool rfl)⟩

/-! ## The type of a required parameter -/

/-- C10, the claim as stated fails: the tool of the test, defined by `add_tool`
with "param1" marked required, is called with "param1" bound to the number 42,
which is not a string; the handler does not fail but acknowledges, both run
directly and through the dispatcher after the `add_tool` call of the test. -/
theorem C10_counterexample :
    ("param1", true) ∈ [("param1", true), ("param2", false)] ∧
    asString Scenario.fortyTwo = none ∧
    genericHandler "dynamic_tool" (Shuffle.inOrder.visit [("param1", true), ("param2", false)])
        (Any.obj [("param1", Scenario.fortyTwo)]) =
      Outcome.result (NewToolResultText (executedText "dynamic_tool")) ∧
    (dispatch noCheck decodeFlags (run noCheck decodeFlags main [Scenario.addDynamicTool])
        { name := "dynamic_tool", arguments := Any.obj [("param1", Scenario.fortyTwo)],
          order := Shuffle.inOrder }).2 =
      DispatchOutcome.handled (Outcome.result
        (NewToolResultText
          "Tool dynamic_tool executed successfully! Response: this answer is from your go mcp server")) :=
  ⟨by decide, rfl, rfl, by decide⟩

/-- C10, amended: `hello_world` demands a string for "name": a call whose
arguments bind "name" to a value that is not a string fails with the error "name
must be a string" and yields no result (in the dynamic-tool server and in the
SSE and stdio servers alike). An operation defined by `add_tool` checks a
required parameter for presence only: the outcome of its handler is the same for
two argument maps that have the same required names, whatever the values, and a
call that has every required name succeeds whatever the types of the values. -/
theorem C10_string_type_checked_by_hello_only :
    (∀ (fields : List (String × Any)) (v : Any),
        mapGet fields "name" = some v → asString v = none →
        helloHandler (Any.obj fields) = Outcome.error "name must be a string" ∧
          SSE.helloHandler fields = Outcome.error "name must be a string") ∧
      (∀ (n : String) (P : ParamList) (order : Shuffle) (fields1 fields2 : List (String × Any)),
        (∀ p, (p, true) ∈ P → (mapGet fields1 p = none ↔ mapGet fields2 p = none)) →
        genericHandler n (order.visit P) (Any.obj fields1) =
          genericHandler n (order.visit P) (Any.obj fields2)) ∧
      (∀ (n : String) (P : ParamList) (order : Shuffle) (fields : List (String × Any)),
        (∀ p, (p, true) ∈ P → mapGet fields p ≠ none) →
        genericHandler n (order.visit P) (Any.obj fields) =
          Outcome.result
            { content := [Content.text ("Tool " ++ n ++
                " executed successfully! Response: this answer is from your go mcp server")],
              isError := false }) := by
  refine ⟨?_, ?_, ?_⟩
  · intro fields v hv hns
    constructor
    · simp [helloHandler, asMap, mapIndex_of_get hv, hns]
    · simp [SSE.helloHandler, mapIndex_of_get hv, hns]
  · intro n P order fields1 fields2 h
    exact genericHandler_congr n _ fields1 fields2
      (fun p hp => h p ((order.perm P).mem_iff.1 hp))
  · intro n P order fields hall
    rw [← executedText_eq]
    refine (genericHandler_result_iff n (order.visit P) _).2 ?_
    intro p hp
    exact ⟨fields, rfl, hall p ((order.perm P).mem_iff.1 hp)⟩

/-- The greeting called with the number 42 for a name, and the tool of the test
called with the number 42 and with a string for its required parameter. -/
theorem C10_string_type_checked_by_hello_only_witness :
    helloHandler (Any.obj [("name", Scenario.fortyTwo)]) =
      Outcome.error "name must be a string" ∧
    genericHandler "dynamic_tool"
        (Shuffle.backwards.visit [("param1", true), ("param2", false)])
        (Any.obj [("param1", Scenario.fortyTwo)]) =
      genericHandler "dynamic_tool"
        (Shuffle.backwards.visit [("param1", true), ("param2", false)])
        (Any.obj [("param1", Any.str "value1")]) :=
  ⟨(C10_string_type_checked_by_hello_only.1 [("name", Scenario.fortyTwo)] Scenario.fortyTwo
      rfl rfl).1,
    C10_string_type_checked_by_hello_only.2.1 "dynamic_tool" [("param1", true), ("param2", false)]
      Shuffle.backwards [("param1", Scenario.fortyTwo)] [("param1", Any.str "value1")]
      (by
        intro p hp
        have hp1 : p = "param1" := by simpa using hp
        subst hp1
        simp [mapGet])⟩


/-! ## Arguments the contract does not declare -/

theorem mapGet_cons_ne (fields : List (String × Any)) (key p : String) (v : Any)
    (h : key ≠ p) : mapGet ((key, v) :: fields) p = mapGet fields p := by
  simp [mapGet, h]

/-- C11: undeclared extra arguments are never rejected and never change the
outcome. For an operation defined by `add_tool` with parameter map `P` and two
argument maps that have the same names among those `P` marks required, the
generic handler returns the same outcome on both, whatever order its loop
visits `P` in and whatever other keys and whatever values the maps hold; adding
a binding for a name `P` does not mark required changes nothing. Under two
different loop orders the two calls still succeed together, with the same text,
or fail together. -/
theorem C11_extra_arguments_ignored (n : String) (P : ParamList) (order : Shuffle)
    (fields1 fields2 : List (String × Any))
    (h : ∀ p, (p, true) ∈ P → (mapGet fields1 p = none ↔ mapGet fields2 p = none)) :
    genericHandler n (order.visit P) (Any.obj fields1) =
        genericHandler n (order.visit P) (Any.obj fields2) ∧
      (∀ (key : String) (v : Any), (key, true) ∉ P →
        genericHandler n (order.visit P) (Any.obj ((key, v) :: fields1)) =
          genericHandler n (order.visit P) (Any.obj fields1)) ∧
      (∀ order2 : Shuffle,
        (genericHandler n (order.visit P) (Any.obj fields1) =
            Outcome.result (NewToolResultText (executedText n)) ↔
          genericHandler n (order2.visit P) (Any.obj fields2) =
            Outcome.result (NewToolResultText (executedText n))) ∧
        ((∃ msg, genericHandler n (order.visit P) (Any.obj fields1) = Outcome.error msg) ↔
          ∃ msg, genericHandler n (order2.visit P) (Any.obj fields2) = Outcome.error msg)) := by
  have hsame := genericHandler_congr n (order.visit P) fields1 fields2
    (fun p hp => h p ((order.perm P).mem_iff.1 hp))
  have hres : ∀ order2 : Shuffle,
      (genericHandler n (order.visit P) (Any.obj fields1) =
          Outcome.result (NewToolResultText (executedText n)) ↔
        genericHandler n (order2.visit P) (Any.obj fields2) =
          Outcome.result (NewToolResultText (executedText n))) := by
    intro order2
    rw [genericHandler_result_iff, genericHandler_result_iff]
    constructor
    · intro h1 p hp
      have hpP := (order2.perm P).mem_iff.1 hp
      obtain ⟨f, hf, hne⟩ := h1 p ((order.perm P).mem_iff.2 hpP)
      simp only [asMap, Option.some.injEq] at hf
      subst hf
      exact ⟨fields2, rfl, fun h2 => hne ((h p hpP).2 h2)⟩
    · intro h1 p hp
      have hpP := (order.perm P).mem_iff.1 hp
      obtain ⟨f, hf, hne⟩ := h1 p ((order2.perm P).mem_iff.2 hpP)
      simp only [asMap, Option.some.injEq] at hf
      subst hf
      exact ⟨fields1, rfl, fun h2 => hne ((h p hpP).1 h2)⟩
  refine ⟨hsame, ?_, fun order2 => ⟨hres order2, ?_⟩⟩
  · intro key v hkey
    apply genericHandler_congr
    intro p hp
    have hne : key ≠ p := by
      rintro rfl
      exact hkey ((order.perm P).mem_iff.1 hp)
    rw [mapGet_cons_ne fields1 key p v hne]
  · have htot1 := genericHandler_total n (order.visit P) (Any.obj fields1)
    have htot2 := genericHandler_total n (order2.visit P) (Any.obj fields2)
    constructor
    · rintro ⟨msg, hmsg⟩
      rcases htot2 with h2 | h2
      · have h1 := (hres order2).2 h2
        rw [h1] at hmsg; cases hmsg
      · exact h2
    · rintro ⟨msg, hmsg⟩
      rcases htot1 with h1 | h1
      · have h2 := (hres order2).1 h1
        rw [h2] at hmsg; cases hmsg
      · exact h1

/-- The tool of the test called with its required parameter as a string, and
with it as a number next to two other keys. -/
theorem C11_extra_arguments_ignored_witness :
    genericHandler "dynamic_tool"
        (Shuffle.backwards.visit [("param1", true), ("param2", false)])
        (Any.obj [("param1", Any.str "value1")]) =
      genericHandler "dynamic_tool"
        (Shuffle.backwards.visit [("param1", true), ("param2", false)])
        (Any.obj [("extra", Any.bool true), ("param2", Any.null),
          ("param1", Scenario.fortyTwo)]) :=
  (C11_extra_arguments_ignored "dynamic_tool" [("param1", true), ("param2", false)]
    Shuffle.backwards [("param1", Any.str "value1")]
    [("extra", Any.bool true), ("param2", Any.null), ("param1", Scenario.fortyTwo)]
    (by
      intro p hp
      have hp1 : p = "param1" := by simpa using hp
      subst hp1
      simp [mapGet])).1

/-! ## Requests whose arguments are not a map -/

/-- C13, evaluated: `helloHandler`, `addToolHandler` and `deleteToolHandler`
assert `request.Params.Arguments.(map[string]any)` in the single-valued form, so
on arguments that are absent (`nil`), a string or a list the assertion panics
and the handler returns neither a result nor an error; the generic handler,
which asserts with the comma-ok form, returns the error "invalid arguments
format" on the same arguments. Served through the dispatcher, the call of
"hello_world" without arguments ends in that panic. -/
theorem C13_single_valued_assertion_panics :
    (∀ arguments : Any, asMap arguments = none →
      helloHandler arguments = Outcome.panicked ∧
        (∀ (unmarshal : String → Except String ParamList) (order : Shuffle) (s : Registry),
          (addToolHandler unmarshal order s arguments).2 = Outcome.panicked) ∧
        (∀ s : Registry, (deleteToolHandler s arguments).2 = Outcome.panicked) ∧
        (∀ (n p : String), genericHandler n [(p, true)] arguments =
          Outcome.error "invalid arguments format")) ∧
    asMap Any.null = none ∧ asMap (Any.str "Ada") = none ∧ asMap (Any.arr []) = none ∧
    helloHandler Any.null = Outcome.panicked ∧
    (dispatch noCheck decodeFlags main Scenario.helloNoArguments).2 =
      DispatchOutcome.handled Outcome.panicked := by
  refine ⟨?_, rfl, rfl, rfl, rfl, by decide⟩
  intro arguments hm
  refine ⟨?_, ?_, ?_, ?_⟩
  · simp [helloHandler, hm]
  · intro unmarshal order s
    simp [addToolHandler, hm]
  · intro s
    simp [deleteToolHandler, hm]
  · intro n p
    simp [genericHandler, hm]

/-! ## The notifying tool -/

/-- C19: one invocation of the handler registered under "sseTool" issues exactly
10 notifications, all of method "test/notification" and all to the calling
session, with the values 0, 1, ..., 9 in that order, all before it returns, and
then returns the text result "done". -/
theorem C19_sse_tool_notifications (session : String) :
    (Streamable.sseTool session).1 =
        (List.range 10).map (fun (i : Nat) =>
          ({ session := session, method := "test/notification",
             params := [("value", Int.ofNat i)] } : Streamable.Notification)) ∧
      (Streamable.sseTool session).1.length = 10 ∧
      (∀ m ∈ (Streamable.sseTool session).1,
        m.method = "test/notification" ∧ m.session = session) ∧
      (Streamable.sseTool session).1.map (fun m => m.params) =
        [[("value", 0)], [("value", 1)], [("value", 2)], [("value", 3)], [("value", 4)],
         [("value", 5)], [("value", 6)], [("value", 7)], [("value", 8)], [("value", 9)]] ∧
      (Streamable.sseTool session).2 =
        Outcome.result { content := [Content.text "done"], isError := false } := by
  have hlist : (Streamable.sseTool session).1 =
      (List.range 10).map (fun (i : Nat) =>
        ({ session := session, method := "test/notification",
           params := [("value", Int.ofNat i)] } : Streamable.Notification)) := by
    simp [Streamable.sseTool, Streamable.sendLoop, List.range, List.range.loop]
  refine ⟨hlist, ?_, ?_, ?_, rfl⟩
  · rw [hlist]; simp
  · rw [hlist]
    intro m hm
    simp only [List.mem_map] at hm
    obtain ⟨i, _, rfl⟩ := hm
    exact ⟨rfl, rfl⟩
  · rw [hlist]
    simp [List.range, List.range.loop]

/-! ## The REST greeter and the adapter -/

theorem greetHandler_ok (decode : String → Except String Rest.GreetingRequest)
    (encode : Rest.GreetingResponse → String) (r : Rest.Request) (n : String)
    (hm : r.method = "POST") (hd : decode r.body = Except.ok { name := n }) (hn : n ≠ "") :
    Rest.greetHandler decode encode r =
      { statusCode := 200, contentType := "application/json",
        body := encode { message := "Hello, " ++ n ++ "! This is from your rest server" } } := by
  simp [Rest.greetHandler, hm, hd, hn]

/-- C14, evaluated: for the POST of the test, whose body carries the name
"Alice", `greetHandler` answers with status 200 and a JSON body whose message
field is "Hello, Alice! This is from your rest server", not the "Hello, Alice!"
the test `TestGreetHandler/Valid Request` expects; for every non-empty name n
the message is "Hello, n! This is from your rest server". -/
theorem C14_greeting_carries_suffix :
    Rest.greetHandler decodeGreetingRequest encodeGreetingResponse
        { method := "POST", body := "\x7b\"name\":\"Alice\"\x7d" } =
      { statusCode := 200, contentType := "application/json",
        body := encodeGreetingResponse
          { message := "Hello, Alice! This is from your rest server" } } ∧
    decodeGreetingResponse
        (Rest.greetHandler decodeGreetingRequest encodeGreetingResponse
          { method := "POST", body := "\x7b\"name\":\"Alice\"\x7d" }).body =
      Except.ok { message := "Hello, Alice! This is from your rest server" } ∧
    "Hello, Alice! This is from your rest server" ≠ "Hello, " ++ "Alice" ++ "!" ∧
    ∀ (decode : String → Except String Rest.GreetingRequest)
      (encode : Rest.GreetingResponse → String) (r : Rest.Request) (n : String),
      r.method = "POST" → decode r.body = Except.ok { name := n } → n ≠ "" →
      Rest.greetHandler decode encode r =
        { statusCode := 200, contentType := "application/json",
          body := encode { message := "Hello, " ++ n ++ "! This is from your rest server" } } :=
  ⟨by decide, by rfl, by decide,
    fun decode encode r n hm hd hn => greetHandler_ok decode encode r n hm hd hn⟩

/-- C15: the adapter's `hello_world` forwards to the REST greeter and returns
its message unchanged. For every non-empty string name n, with the `/greet`
endpoint served by `greetHandler` and codecs that read back what was written
(the request body decodes to n, the reply body decodes to the message), the
adapter's `helloHandler` returns no error but the text "Hello, n! This is from
your rest server". -/
theorem C15_adapter_forwards (marshal : String → Except String String)
    (decodeRequest : String → Except String Rest.GreetingRequest)
    (encodeResponse : Rest.GreetingResponse → String)
    (decodeResponse : String → Except String Rest.GreetingResponse)
    (arguments : List (String × Any)) (n body : String)
    (hname : mapGet arguments "name" = some (Any.str n)) (hn : n ≠ "")
    (hmarshal : marshal n = Except.ok body)
    (hrequest : decodeRequest body = Except.ok { name := n })
    (hresponse :
      decodeResponse
          (encodeResponse { message := "Hello, " ++ n ++ "! This is from your rest server" }) =
        Except.ok { message := "Hello, " ++ n ++ "! This is from your rest server" }) :
    Rest2MCP.helloHandler marshal (Rest2MCP.greetEndpoint decodeRequest encodeResponse)
        decodeResponse arguments =
      Outcome.result
        { content := [Content.text ("Hello, " ++ n ++ "! This is from your rest server")],
          isError := false } := by
  have hgreet := greetHandler_ok decodeRequest encodeResponse
    { method := "POST", body := body } n rfl hrequest hn
  simp [Rest2MCP.helloHandler, mapIndex_of_get hname, asString, hmarshal,
    Rest2MCP.greetEndpoint, hgreet, hresponse, NewToolResultText]

/-- The call of `TestAdapter`, with the name "Vi_error". -/
theorem C15_adapter_forwards_witness :
    (marshalName "Vi_error" = Except.ok "\x7b\"name\":\"Vi_error\"\x7d" ∧
      decodeGreetingRequest "\x7b\"name\":\"Vi_error\"\x7d" =
        Except.ok { name := "Vi_error" }) ∧
    Rest2MCP.helloHandler marshalName
        (Rest2MCP.greetEndpoint decodeGreetingRequest encodeGreetingResponse)
        decodeGreetingResponse [("name", Any.str "Vi_error")] =
      Outcome.result
        { content := [Content.text ("Hello, " ++ "Vi_error" ++
            "! This is from your rest server")],
          isError := false } :=
  ⟨⟨rfl, rfl⟩,
    C15_adapter_forwards marshalName decodeGreetingRequest encodeGreetingResponse
      decodeGreetingResponse [("name", Any.str "Vi_error")]
      "Vi_error" "\x7b\"name\":\"Vi_error\"\x7d" rfl (by decide) rfl rfl rfl⟩

/-- C16: `greetHandler` answers 200 with a greeting exactly when the method is
POST and the body decodes to a request with a non-empty name. Every request of
another method gets status 405 whatever its body, the method being checked
first; every POST whose body does not decode, or decodes to an empty name (the
value of a missing one), gets status 400. In both error cases the body is the
error text and no greeting. -/
theorem C16_greet_status_codes (decode : String → Except String Rest.GreetingRequest)
    (encode : Rest.GreetingResponse → String) (r : Rest.Request) :
    (r.method ≠ "POST" →
        Rest.greetHandler decode encode r = Rest.httpError "Invalid request method" 405) ∧
      (r.method = "POST" → (∀ err, decode r.body ≠ Except.error err) →
        (∀ req, decode r.body = Except.ok req → req.name = "") →
        Rest.greetHandler decode encode r = Rest.httpError "Invalid request body" 400) ∧
      (r.method = "POST" → (∃ err, decode r.body = Except.error err) →
        Rest.greetHandler decode encode r = Rest.httpError "Invalid request body" 400) ∧
      ((Rest.greetHandler decode encode r).statusCode = 200 ↔
        r.method = "POST" ∧ ∃ req, decode r.body = Except.ok req ∧ req.name ≠ "") ∧
      ((Rest.greetHandler decode encode r).statusCode = 200 →
        ∃ req, decode r.body = Except.ok req ∧
          (Rest.greetHandler decode encode r).body =
            encode { message := "Hello, " ++ req.name ++ "! This is from your rest server" }) ∧
      ((Rest.greetHandler decode encode r).statusCode ≠ 200 →
        (Rest.greetHandler decode encode r).body = "Invalid request method\n" ∨
          (Rest.greetHandler decode encode r).body = "Invalid request body\n") := by
  by_cases hm : r.method = "POST"
  · cases hd : decode r.body with
    | error err => simp [Rest.greetHandler, Rest.httpError, hm, hd]
    | ok req =>
      by_cases hn : req.name = ""
      · simp [Rest.greetHandler, Rest.httpError, hm, hd, hn]
      · simp [Rest.greetHandler, Rest.httpError, hm, hd, hn]
  · simp [Rest.greetHandler, Rest.httpError, hm]

/-- The three requests of `TestGreetHandler`: a GET, a POST whose body is not
JSON, and a POST with a name. -/
theorem C16_greet_status_codes_witness :
    Rest.greetHandler decodeGreetingRequest encodeGreetingResponse
        { method := "GET", body := "" } =
      Rest.httpError "Invalid request method" 405 ∧
    Rest.greetHandler decodeGreetingRequest encodeGreetingResponse
        { method := "POST", body := "\x7b\"invalid_json\"\x7d" } =
      Rest.httpError "Invalid request body" 400 ∧
    (Rest.greetHandler decodeGreetingRequest encodeGreetingResponse
        { method := "POST", body := "\x7b\"name\":\"Alice\"\x7d" }).statusCode = 200 :=
  ⟨(C16_greet_status_codes decodeGreetingRequest encodeGreetingResponse
      { method := "GET", body := "" }).1 (by decide),
    (C16_greet_status_codes decodeGreetingRequest encodeGreetingResponse
      { method := "POST", body := "\x7b\"invalid_json\"\x7d" }).2.2.1 rfl
      ⟨"invalid character in object", rfl⟩,
    (C16_greet_status_codes decodeGreetingRequest encodeGreetingResponse
      { method := "POST", body := "\x7b\"name\":\"Alice\"\x7d" }).2.2.2.1.2
      ⟨rfl, { name := "Alice" }, rfl, by decide⟩⟩

/-! ## Where the arguments are validated -/

/-- Step 2 rejects the arguments as soon as the check of one required parameter
of the contract does. -/
theorem validateArguments_rejects (check : ParameterContract → Any → Option String)
    (contract : List ParameterContract) (arguments : Any) (q : ParameterContract)
    (hq : q ∈ contract) (hreq : q.required = true) (hbad : ∃ msg, check q arguments = some msg) :
    ∃ msg, validateArguments check contract arguments = some msg := by
  induction contract with
  | nil => cases hq
  | cons c rest ih =>
    by_cases hc : c.required = true
    · cases hchk : check c arguments with
      | some msg => exact ⟨msg, by simp [validateArguments, hc, hchk]⟩
      | none =>
        rcases List.mem_cons.1 hq with heq | hmem
        · subst heq
          obtain ⟨msg, hmsg⟩ := hbad
          rw [hchk] at hmsg; cases hmsg
        · obtain ⟨msg, hmsg⟩ := ih hmem
          exact ⟨msg, by simp [validateArguments, hc, hchk, hmsg]⟩
    · rcases List.mem_cons.1 hq with heq | hmem
      · subst heq
        exact absurd hreq hc
      · obtain ⟨msg, hmsg⟩ := ih hmem
        exact ⟨msg, by simp [validateArguments, hc, hmsg]⟩

/-- A call that the handler answers with an error, whatever step 2 checks,
leaves the registry alone and yields no result. -/
theorem dispatch_of_handler_error (check : ParameterContract → Any → Option String)
    (unmarshal : String → Except String ParamList) (s : Registry) (c : Call)
    (entry : ServerTool) (msg : String) (hs : s c.name = some entry)
    (hrun : runHandler unmarshal entry.handler c.order s c.arguments = (s, Outcome.error msg)) :
    (dispatch check unmarshal s c).1 = s ∧
      ∀ r, (dispatch check unmarshal s c).2 ≠ DispatchOutcome.handled (Outcome.result r) := by
  cases hv : validateArguments check entry.tool.contract c.arguments with
  | some m =>
    rw [dispatch_rejected check unmarshal s c entry m hs hv]
    exact ⟨rfl, fun r h => by cases h⟩
  | none =>
    rw [dispatch_handled check unmarshal s c entry hs hv, hrun]
    exact ⟨rfl, fun r h => by cases h⟩

theorem main_hello_world : main "hello_world" = some Scenario.helloEntry := by decide

theorem helloEntry_contract :
    Scenario.helloEntry.tool.contract =
      [{ name := "name", required := true, description := "Name of the person to greet" }] := by
  decide

/-- Step 2 rejects nothing when the check of a required parameter accepts every
argument set. -/
theorem validateArguments_noCheck (contract : List ParameterContract) (arguments : Any) :
    validateArguments noCheck contract arguments = none := by
  induction contract with
  | nil => rfl
  | cons c rest ih =>
    by_cases hc : c.required = true
    · simp [validateArguments, hc, noCheck, ih]
    · simp [validateArguments, hc, ih]

/-- A call whose handler answers with an error and leaves the registry alone
ends, whatever step 2 checks, in that error of the handler or in a rejection by
step 2. -/
theorem dispatch_error_or_rejected (check : ParameterContract → Any → Option String)
    (unmarshal : String → Except String ParamList) (s : Registry) (c : Call)
    (entry : ServerTool) (msg : String) (hs : s c.name = some entry)
    (hrun : runHandler unmarshal entry.handler c.order s c.arguments = (s, Outcome.error msg)) :
    dispatch check unmarshal s c = (s, DispatchOutcome.handled (Outcome.error msg)) ∨
      ∃ m, dispatch check unmarshal s c = (s, DispatchOutcome.invalidArguments m) := by
  cases hv : validateArguments check entry.tool.contract c.arguments with
  | some m => exact Or.inr ⟨m, dispatch_rejected check unmarshal s c entry m hs hv⟩
  | none =>
    left
    rw [dispatch_handled check unmarshal s c entry hs hv, hrun]

/-- C12, the claim as stated fails: in the sources the only validation is
inside the handlers. Served by a dispatcher that leaves validation to them, the
call of "hello_world" with empty arguments passes step 2, the handler is invoked
and the outcome is the handler's own error "name must be a string" (line 54);
likewise the tool of the test, called without its required "param1", answers
with the error of its closure (line 103). -/
theorem C12_counterexample :
    validateArguments noCheck Scenario.helloEntry.tool.contract
        Scenario.helloNoName.arguments = none ∧
    (dispatch noCheck decodeFlags main Scenario.helloNoName).2 =
      DispatchOutcome.handled (Outcome.error "name must be a string") ∧
    helloHandler (Any.obj []) = Outcome.error "name must be a string" ∧
    (dispatch noCheck decodeFlags (run noCheck decodeFlags main [Scenario.addDynamicTool])
        { name := "dynamic_tool", arguments := Any.obj [("param2", Any.str "x")],
          order := Shuffle.inOrder }).2 =
      DispatchOutcome.handled (Outcome.error "missing required parameter: param1") ∧
    genericHandler "dynamic_tool" (Shuffle.inOrder.visit [("param1", true), ("param2", false)])
        (Any.obj [("param2", Any.str "x")]) =
      Outcome.error "missing required parameter: param1" :=
  ⟨by decide, by decide, rfl, by decide, rfl⟩

/-- C12, amended: the handlers validate for themselves, before anything else in
their body. For "hello_world" as `main` registers it, and for an operation
defined by `add_tool` whose specification marks a parameter required, a call
whose argument map lacks that parameter, served by a dispatcher that leaves
validation to the handlers, invokes the handler, which returns its error ("name
must be a string"; "missing required parameter: q" for a required q the map
lacks) and leaves the registry as it was. Whatever step 2 of the dispatcher
checks, such a call ends in that error or in a rejection by step 2, never yields
a result and never changes the registry. -/
theorem C12_handlers_validate_first (unmarshal : String → Except String ParamList) :
    (∀ (s : Registry) (c : Call) (fields : List (String × Any)),
        s "hello_world" = main "hello_world" → c.name = "hello_world" →
        c.arguments = Any.obj fields → mapGet fields "name" = none →
        dispatch noCheck unmarshal s c =
            (s, DispatchOutcome.handled (Outcome.error "name must be a string")) ∧
          ∀ check : ParameterContract → Any → Option String,
            (dispatch check unmarshal s c =
                (s, DispatchOutcome.handled (Outcome.error "name must be a string")) ∨
              ∃ m, dispatch check unmarshal s c = (s, DispatchOutcome.invalidArguments m)) ∧
            (dispatch check unmarshal s c).1 = s ∧
            ∀ r, (dispatch check unmarshal s c).2 ≠
              DispatchOutcome.handled (Outcome.result r)) ∧
      ∀ (order : Shuffle) (s : Registry) (fields0 : List (String × Any)) (n d pl : String)
        (P : ParamList) (p : String) (c : Call) (fields : List (String × Any)),
        mapGet fields0 "toolName" = some (Any.str n) →
        mapGet fields0 "toolDesc" = some (Any.str d) →
        mapGet fields0 "paramList" = some (Any.str pl) →
        unmarshal pl = Except.ok P → (p, true) ∈ P →
        c.name = n → c.arguments = Any.obj fields → mapGet fields p = none →
        ∃ q, (q, true) ∈ P ∧ mapGet fields q = none ∧
          dispatch noCheck unmarshal (addToolHandler unmarshal order s (Any.obj fields0)).1 c =
            ((addToolHandler unmarshal order s (Any.obj fields0)).1,
              DispatchOutcome.handled
                (Outcome.error ("missing required parameter: " ++ q))) ∧
          ∀ check : ParameterContract → Any → Option String,
            (dispatch check unmarshal
                  (addToolHandler unmarshal order s (Any.obj fields0)).1 c =
                ((addToolHandler unmarshal order s (Any.obj fields0)).1,
                  DispatchOutcome.handled
                    (Outcome.error ("missing required parameter: " ++ q))) ∨
              ∃ m, dispatch check unmarshal
                  (addToolHandler unmarshal order s (Any.obj fields0)).1 c =
                ((addToolHandler unmarshal order s (Any.obj fields0)).1,
                  DispatchOutcome.invalidArguments m)) ∧
            (dispatch check unmarshal
                (addToolHandler unmarshal order s (Any.obj fields0)).1 c).1 =
              (addToolHandler unmarshal order s (Any.obj fields0)).1 ∧
            ∀ r, (dispatch check unmarshal
                (addToolHandler unmarshal order s (Any.obj fields0)).1 c).2 ≠
              DispatchOutcome.handled (Outcome.result r) := by
  refine ⟨?_, ?_⟩
  · intro s c fields hs hname ha habs
    have hlook : s c.name = some Scenario.helloEntry := by
      rw [hname, hs]; exact main_hello_world
    have hrun : runHandler unmarshal Scenario.helloEntry.handler c.order s c.arguments =
        (s, Outcome.error "name must be a string") := by
      simp [runHandler, Scenario.helloEntry, ha, helloHandler, asMap,
        mapIndex_of_absent habs, asString]
    refine ⟨?_, fun check => ⟨?_, ?_⟩⟩
    · rw [dispatch_handled noCheck unmarshal s c Scenario.helloEntry hlook
        (validateArguments_noCheck _ _), hrun]
    · exact dispatch_error_or_rejected check unmarshal s c _ _ hlook hrun
    · exact dispatch_of_handler_error check unmarshal s c _ _ hlook hrun
  · intro order s fields0 n d pl P p c fields hn hd hp hu hpP hname ha habs
    rw [addToolHandler_ok unmarshal order s fields0 n d pl P hn hd hp hu]
    have hlook : AddTool s (NewTool n (toolOptions d (order.visit P))) (Handler.dynamic n P)
        c.name = some ⟨NewTool n (toolOptions d (order.visit P)), Handler.dynamic n P⟩ := by
      simp [AddTool, NewTool_name, hname]
    obtain ⟨msg, hmsg⟩ := genericHandler_fails_of_absent n (c.order.visit P) fields p
      ((c.order.perm P).mem_iff.2 hpP) habs
    rcases genericHandler_error n (c.order.visit P) (Any.obj fields) msg hmsg with
      ⟨hnone, _, _⟩ | ⟨fields2, q, hf, hq, hqabs, hqmsg⟩
    · simp [asMap] at hnone
    · simp only [asMap, Option.some.injEq] at hf
      subst hf
      subst hqmsg
      have hrun : runHandler unmarshal (Handler.dynamic n P) c.order
          (AddTool s (NewTool n (toolOptions d (order.visit P))) (Handler.dynamic n P))
          c.arguments =
          (AddTool s (NewTool n (toolOptions d (order.visit P))) (Handler.dynamic n P),
            Outcome.error ("missing required parameter: " ++ q)) := by
        simp [runHandler, ha, hmsg]
      refine ⟨q, (c.order.perm P).mem_iff.1 hq, hqabs, ?_, fun check => ⟨?_, ?_⟩⟩
      · rw [dispatch_handled noCheck unmarshal _ c _ hlook (validateArguments_noCheck _ _)]
        exact congrArg (fun x => (x.1, DispatchOutcome.handled x.2)) hrun
      · exact dispatch_error_or_rejected check unmarshal _ c _ _ hlook hrun
      · exact dispatch_of_handler_error check unmarshal _ c _ _ hlook hrun

/-- The call of "hello_world" with empty arguments on the registry of `main`:
the handler's error when the dispatcher checks nothing, a rejection in step 2
when it checks presence, and the registry of `main` either way. -/
theorem C12_handlers_validate_first_witness :
    dispatch noCheck decodeFlags main Scenario.helloNoName =
      (main, DispatchOutcome.handled (Outcome.error "name must be a string")) ∧
    (dispatch presenceCheck decodeFlags main Scenario.helloNoName).2 =
      DispatchOutcome.invalidArguments "MissingParameter: name" ∧
    (dispatch presenceCheck decodeFlags main Scenario.helloNoName).1 = main :=
  ⟨((C12_handlers_validate_first decodeFlags).1 main Scenario.helloNoName [] rfl rfl rfl
      rfl).1,
    by decide,
    (((C12_handlers_validate_first decodeFlags).1 main Scenario.helloNoName [] rfl rfl rfl
      rfl).2 presenceCheck).2.1⟩

/-! ## The life of a name -/

theorem main_isSome_iff (n : String) :
    (main n).isSome = true ↔ n = "hello_world" ∨ n = "add_tool" ∨ n = "delete_tool" := by
  have e1 : (NewTool "delete_tool" [WithDescription "delete_tool"]).name = "delete_tool" := rfl
  have e2 : (NewTool "add_tool" [WithDescription "add_tool"]).name = "add_tool" := rfl
  have e3 : (NewTool "hello_world"
      [WithDescription "Say hello to someone",
       WithString "name" [Required, Description "Name of the person to greet"]]).name =
      "hello_world" := rfl
  simp only [main, AddTool, NewMCPServer, e1, e2, e3]
  by_cases h1 : n = "delete_tool"
  · simp [h1]
  · by_cases h2 : n = "add_tool"
    · simp [h2]
    · by_cases h3 : n = "hello_world"
      · simp [h3]
      · simp [h1, h2, h3]

theorem builtinsIntact_main : BuiltinsIntact main := by
  refine ⟨wellBound_main, ?_, ?_⟩
  · intro entry h
    have h2 : main "add_tool" = some Scenario.addEntry := by decide
    rw [h2] at h
    cases h
    rfl
  · intro entry h
    have h2 : main "delete_tool" = some Scenario.deleteEntry := by decide
    rw [h2] at h
    cases h
    rfl

/-- A call of "add_tool" that returns a result, served while "add_tool" is
still bound to `addToolHandler`, registers its `toolName`. -/
theorem add_call_step (check : ParameterContract → Any → Option String)
    (unmarshal : String → Except String ParamList) (s : Registry) (c : Call)
    (r : CallToolResult) (hI : BuiltinsIntact s) (hname : c.name = "add_tool")
    (hok : (dispatch check unmarshal s c).2 = DispatchOutcome.handled (Outcome.result r)) :
    ∃ (m : String) (tool : Tool) (P : ParamList), toolNameOf c.arguments = some m ∧
      tool.name = m ∧
      (dispatch check unmarshal s c).1 = AddTool s tool (Handler.dynamic m P) := by
  cases hs : s c.name with
  | none =>
    rw [dispatch_unknown check unmarshal s c hs] at hok
    cases hok
  | some entry =>
    have hh : entry.handler = Handler.addTool := hI.2.1 entry (by rw [← hname]; exact hs)
    cases hv : validateArguments check entry.tool.contract c.arguments with
    | some msg =>
      rw [dispatch_rejected check unmarshal s c entry msg hs hv] at hok
      cases hok
    | none =>
      rw [dispatch_handled check unmarshal s c entry hs hv, hh] at hok ⊢
      simp only [runHandler, DispatchOutcome.handled.injEq] at hok ⊢
      rcases addToolHandler_cases unmarshal c.order s c.arguments with
        ⟨_, hno⟩ | ⟨fields, n, d, pl, P, ha, hn, _, _, _, heq⟩
      · exact absurd hok (hno r)
      · refine ⟨n, NewTool n (toolOptions d (c.order.visit P)), P, ?_, NewTool_name n d _, ?_⟩
        · rw [ha]; exact toolNameOf_obj hn
        · rw [heq]

/-- A call of "delete_tool" that returns a result, served while "delete_tool" is
still bound to `deleteToolHandler`, removes its `toolName`. -/
theorem delete_call_step (check : ParameterContract → Any → Option String)
    (unmarshal : String → Except String ParamList) (s : Registry) (c : Call)
    (r : CallToolResult) (hI : BuiltinsIntact s) (hname : c.name = "delete_tool")
    (hok : (dispatch check unmarshal s c).2 = DispatchOutcome.handled (Outcome.result r)) :
    ∃ m : String, toolNameOf c.arguments = some m ∧
      (dispatch check unmarshal s c).1 = DeleteTools s m := by
  cases hs : s c.name with
  | none =>
    rw [dispatch_unknown check unmarshal s c hs] at hok
    cases hok
  | some entry =>
    have hh : entry.handler = Handler.deleteTool := hI.2.2 entry (by rw [← hname]; exact hs)
    cases hv : validateArguments check entry.tool.contract c.arguments with
    | some msg =>
      rw [dispatch_rejected check unmarshal s c entry msg hs hv] at hok
      cases hok
    | none =>
      rw [dispatch_handled check unmarshal s c entry hs hv, hh] at hok ⊢
      simp only [runHandler, DispatchOutcome.handled.injEq] at hok ⊢
      rcases deleteToolHandler_cases s c.arguments with ⟨_, hno⟩ | ⟨m, hm, heq⟩
      · exact absurd hok (hno r)
      · exact ⟨m, hm, by rw [heq]⟩

/-- What one successful call of "add_tool" or "delete_tool" does to the
registration of a name, and that it keeps the built-in operations intact when it
does not redefine them. -/
theorem meta_call_step (check : ParameterContract → Any → Option String)
    (unmarshal : String → Except String ParamList) (s : Registry) (c : Call)
    (r : CallToolResult) (hI : BuiltinsIntact s)
    (hmeta : c.name = "add_tool" ∨ c.name = "delete_tool")
    (hok : (dispatch check unmarshal s c).2 = DispatchOutcome.handled (Outcome.result r))
    (hkeep : ¬ c.defines "add_tool" ∧ ¬ c.defines "delete_tool") :
    BuiltinsIntact (dispatch check unmarshal s c).1 ∧
      ∀ n, ((dispatch check unmarshal s c).1 n).isSome =
        if toolNameOf c.arguments = some n then decide (c.name = "add_tool")
        else (s n).isSome := by
  have hwb := wellBound_dispatch check unmarshal s c hI.1
  rcases hmeta with hname | hname
  · obtain ⟨m, tool, P, hm, htool, heq⟩ := add_call_step check unmarshal s c r hI hname hok
    have hma : m ≠ "add_tool" := fun h => hkeep.1 ⟨hname, by rw [hm, h]⟩
    have hmd : m ≠ "delete_tool" := fun h => hkeep.2 ⟨hname, by rw [hm, h]⟩
    refine ⟨⟨hwb, ?_, ?_⟩, ?_⟩
    · intro entry he
      rw [heq] at he
      simp only [AddTool, htool, if_neg hma.symm] at he
      exact hI.2.1 entry he
    · intro entry he
      rw [heq] at he
      simp only [AddTool, htool, if_neg hmd.symm] at he
      exact hI.2.2 entry he
    · intro n
      rw [heq, hm]
      by_cases hn : n = m
      · simp [AddTool, htool, hn, hname]
      · have hn2 : ¬ m = n := fun h => hn h.symm
        simp [AddTool, htool, hn, hn2]
  · obtain ⟨m, hm, heq⟩ := delete_call_step check unmarshal s c r hI hname hok
    refine ⟨⟨hwb, ?_, ?_⟩, ?_⟩
    · intro entry he
      rw [heq] at he
      simp only [DeleteTools] at he
      split at he
      · cases he
      · exact hI.2.1 entry he
    · intro entry he
      rw [heq] at he
      simp only [DeleteTools] at he
      split at he
      · cases he
      · exact hI.2.2 entry he
    · intro n
      rw [heq, hm]
      by_cases hn : n = m
      · simp [DeleteTools, hn, hname]
      · have hn2 : ¬ m = n := fun h => hn h.symm
        simp [DeleteTools, hn, hn2]

/-- After a sequence of successful calls of "add_tool" and "delete_tool" that
redefine neither, a name is registered according to the last call that names it,
or as it was when none does. -/
theorem registered_after (check : ParameterContract → Any → Option String)
    (unmarshal : String → Except String ParamList) (cs : List Call) (s : Registry)
    (hI : BuiltinsIntact s)
    (hmeta : ∀ c ∈ cs, c.name = "add_tool" ∨ c.name = "delete_tool")
    (hok : AllSucceed check unmarshal s cs)
    (hkeep : ∀ c ∈ cs, ¬ c.defines "add_tool" ∧ ¬ c.defines "delete_tool") (n : String) :
    (run check unmarshal s cs n).isSome =
      match lastNaming n cs with
      | some b => b
      | none => (s n).isSome := by
  induction cs generalizing s with
  | nil => rfl
  | cons c rest ih =>
    obtain ⟨⟨r, hr⟩, hrest⟩ := hok
    have hstep := meta_call_step check unmarshal s c r hI (hmeta c (List.mem_cons_self _ _)) hr
      (hkeep c (List.mem_cons_self _ _))
    have hih := ih (dispatch check unmarshal s c).1 hstep.1
      (fun c2 h2 => hmeta c2 (List.mem_cons_of_mem _ h2)) hrest
      (fun c2 h2 => hkeep c2 (List.mem_cons_of_mem _ h2))
    simp only [run, lastNaming]
    rw [hih]
    cases hl : lastNaming n rest with
    | some b => rfl
    | none =>
      simp only
      rw [hstep.2 n]
      split <;> rfl

/-- C18, the claim as stated fails: from the registry of `main`, the call
`add_tool` with `toolName` "add_tool" succeeds and puts the generic handler
under "add_tool"; the following `add_tool` call with `toolName` "echo" succeeds
too, with the acknowledgment of that generic handler, and registers nothing, so
"echo" is absent although the last call that names it is an `add_tool`. In the
same way, after `add_tool` with `toolName` "delete_tool", a successful
`delete_tool` call with `toolName` "hello_world" leaves "hello_world"
registered. -/
theorem C18_counterexample :
    ((dispatch noCheck decodeFlags main Scenario.redefineAddTool).2 =
        DispatchOutcome.handled (Outcome.result (NewToolResultText
          (addedText "add_tool" "redefined"))) ∧
      (dispatch noCheck decodeFlags (run noCheck decodeFlags main [Scenario.redefineAddTool])
          Scenario.addEcho).2 =
        DispatchOutcome.handled (Outcome.result (NewToolResultText
          (executedText "add_tool"))) ∧
      lastNaming "echo" [Scenario.redefineAddTool, Scenario.addEcho] = some true ∧
      run noCheck decodeFlags main [Scenario.redefineAddTool, Scenario.addEcho] "echo" =
        none) ∧
    ((dispatch noCheck decodeFlags main Scenario.redefineDeleteTool).2 =
        DispatchOutcome.handled (Outcome.result (NewToolResultText
          (addedText "delete_tool" "redefined"))) ∧
      (dispatch noCheck decodeFlags
          (run noCheck decodeFlags main [Scenario.redefineDeleteTool])
          Scenario.deleteHello).2 =
        DispatchOutcome.handled (Outcome.result (NewToolResultText
          (executedText "delete_tool"))) ∧
      lastNaming "hello_world" [Scenario.redefineDeleteTool, Scenario.deleteHello] =
        some false ∧
      run noCheck decodeFlags main [Scenario.redefineDeleteTool, Scenario.deleteHello]
          "hello_world" = some Scenario.helloEntry) ∧
    ∀ check : ParameterContract → Any → Option String,
      AllSucceed check decodeFlags main [Scenario.redefineAddTool, Scenario.addEcho] ∧
        run check decodeFlags main [Scenario.redefineAddTool, Scenario.addEcho] "echo" =
          none :=
  ⟨⟨by decide, by decide, by decide, by decide⟩,
    ⟨by decide, by decide, by decide, by decide⟩,
    fun _ => ⟨⟨⟨_, rfl⟩, ⟨_, rfl⟩, trivial⟩, rfl⟩⟩

/-- C18, amended: each name follows the two-state machine Absent/Registered as
long as the built-in operations are not themselves redefined. For every finite
sequence of successful calls of "add_tool" and "delete_tool" from the registry
of `main`, none of them an `add_tool` call whose `toolName` is "add_tool" or
"delete_tool", and every name n: n is registered after the sequence exactly when
the last call whose `toolName` is n was an `add_tool`, or no call names n and n
is one of "hello_world", "add_tool", "delete_tool". In any registry, a call
whose `toolName` is not n leaves the entry of n as it was. -/
theorem C18_two_state_machine (check : ParameterContract → Any → Option String)
    (unmarshal : String → Except String ParamList) (cs : List Call)
    (hmeta : ∀ c ∈ cs, c.name = "add_tool" ∨ c.name = "delete_tool")
    (hok : AllSucceed check unmarshal main cs)
    (hkeep : ∀ c ∈ cs, ¬ c.defines "add_tool" ∧ ¬ c.defines "delete_tool") :
    (∀ n, (run check unmarshal main cs n).isSome = true ↔
        lastNaming n cs = some true ∨
          (lastNaming n cs = none ∧
            (n = "hello_world" ∨ n = "add_tool" ∨ n = "delete_tool"))) ∧
      ∀ (s : Registry) (c : Call) (n : String), toolNameOf c.arguments ≠ some n →
        (dispatch check unmarshal s c).1 n = s n := by
  refine ⟨?_, ?_⟩
  · intro n
    rw [registered_after check unmarshal cs main builtinsIntact_main hmeta hok hkeep n]
    cases hl : lastNaming n cs with
    | some b => cases b <;> simp
    | none => simpa using main_isSome_iff n
  · intro s c n hne
    rcases dispatch_frame check unmarshal s c n with h | ⟨_, _, hn, _⟩
    · exact h
    · exact absurd hn hne

/-- The calls of the test: "dynamic_tool" is added and then deleted. After the
first call it is registered, after both it is absent, and "hello_world", which
no call names, is registered throughout. -/
theorem C18_two_state_machine_witness :
    (AllSucceed noCheck decodeFlags main
        [Scenario.addDynamicTool, Scenario.deleteDynamicTool] ∧
      lastNaming "dynamic_tool" [Scenario.addDynamicTool, Scenario.deleteDynamicTool] =
        some false ∧
      lastNaming "hello_world" [Scenario.addDynamicTool, Scenario.deleteDynamicTool] =
        none) ∧
    ¬ (run noCheck decodeFlags main [Scenario.addDynamicTool, Scenario.deleteDynamicTool]
        "dynamic_tool").isSome = true ∧
    (run noCheck decodeFlags main [Scenario.addDynamicTool, Scenario.deleteDynamicTool]
        "hello_world").isSome = true :=
  have hmeta : ∀ c ∈ [Scenario.addDynamicTool, Scenario.deleteDynamicTool],
      c.name = "add_tool" ∨ c.name = "delete_tool" := by
    intro c hc
    simp only [List.mem_cons, List.mem_singleton, List.not_mem_nil, or_false] at hc
    rcases hc with rfl | rfl
    · exact Or.inl rfl
    · exact Or.inr rfl
  have hok : AllSucceed noCheck decodeFlags main
      [Scenario.addDynamicTool, Scenario.deleteDynamicTool] := ⟨⟨_, rfl⟩, ⟨_, rfl⟩, trivial⟩
  have hkeep : ∀ c ∈ [Scenario.addDynamicTool, Scenario.deleteDynamicTool],
      ¬ c.defines "add_tool" ∧ ¬ c.defines "delete_tool" := by
    intro c hc
    simp only [List.mem_cons, List.mem_singleton, List.not_mem_nil, or_false] at hc
    rcases hc with rfl | rfl
    · exact ⟨fun h => absurd h.2 (by decide), fun h => absurd h.2 (by decide)⟩
    · exact ⟨fun h => absurd h.1 (by decide), fun h => absurd h.1 (by decide)⟩
  have key := (C18_two_state_machine noCheck decodeFlags
    [Scenario.addDynamicTool, Scenario.deleteDynamicTool] hmeta hok hkeep).1
  ⟨⟨hok, by decide, by decide⟩,
    fun h => by
      rcases (key "dynamic_tool").1 h with h1 | ⟨h1, _⟩
      · exact absurd h1 (by decide)
      · exact absurd h1 (by decide),
    (key "hello_world").2 (Or.inr ⟨by decide, Or.inl rfl⟩)⟩

/-! ## Losing the defining operation -/

theorem noAdder_of_lost (s : Registry) (hs : WellBound s)
    (hlost : ∀ entry, s "add_tool" = some entry → entry.handler ≠ Handler.addTool) :
    NoAdder s := by
  intro k entry hk hh
  have hname := (hs k entry hk).1 hh
  rw [hname] at hk
  exact hlost entry hk hh

/-- Where no entry is bound to `addToolHandler`, a call leaves an entry as it
was or removes it. -/
theorem dispatch_noAdder (check : ParameterContract → Any → Option String)
    (unmarshal : String → Except String ParamList) (s : Registry) (c : Call)
    (hs : NoAdder s) (k : String) (entry : ServerTool)
    (hk : (dispatch check unmarshal s c).1 k = some entry) : s k = some entry := by
  rcases dispatch_frame check unmarshal s c k with h | ⟨e, he, _, ⟨hadd, _⟩ | ⟨_, hnone⟩⟩
  · rw [← h]; exact hk
  · exact absurd hadd (hs c.name e he)
  · rw [hnone] at hk; cases hk

theorem run_noAdder (check : ParameterContract → Any → Option String)
    (unmarshal : String → Except String ParamList) (cs : List Call) (s : Registry)
    (hs : NoAdder s) (k : String) (entry : ServerTool)
    (hk : run check unmarshal s cs k = some entry) : s k = some entry := by
  induction cs generalizing s with
  | nil => exact hk
  | cons c rest ih =>
    have hs1 : NoAdder (dispatch check unmarshal s c).1 := by
      intro k2 e2 h2
      exact hs k2 e2 (dispatch_noAdder check unmarshal s c hs k2 e2 h2)
    exact dispatch_noAdder check unmarshal s c hs k entry (ih _ hs1 hk)

/-- C20: the built-in names get no protection and losing "add_tool" is
irreversible. From the registry of `main`, a `delete_tool` call with `toolName`
"add_tool" leaves "add_tool" absent, and an `add_tool` call with `toolName`
"add_tool" leaves it bound to the generic handler, which changes no registry.
From every registry reached from `main` in which "add_tool" is not bound to
`addToolHandler`, whatever sequence of calls follows, every entry present
afterwards was present before with the same content: no name is added again,
the set of registered names stays the same or shrinks. -/
theorem C20_losing_add_tool_is_irreversible (check : ParameterContract → Any → Option String)
    (unmarshal : String → Except String ParamList) :
    (∀ c : Call, c.name = "delete_tool" → toolNameOf c.arguments = some "add_tool" →
        (dispatch check unmarshal main c).1 "add_tool" = none) ∧
      (∀ (c : Call) (fields : List (String × Any)) (d pl : String) (P : ParamList),
        c.name = "add_tool" → c.arguments = Any.obj fields →
        mapGet fields "toolName" = some (Any.str "add_tool") →
        mapGet fields "toolDesc" = some (Any.str d) →
        mapGet fields "paramList" = some (Any.str pl) → unmarshal pl = Except.ok P →
        ∃ entry, (dispatch check unmarshal main c).1 "add_tool" = some entry ∧
          entry.handler = Handler.dynamic "add_tool" P ∧
          ∀ (order : Shuffle) (s : Registry) (arguments : Any),
            (runHandler unmarshal entry.handler order s arguments).1 = s) ∧
      ∀ cs0 cs : List Call,
        (∀ entry, run check unmarshal main cs0 "add_tool" = some entry →
          entry.handler ≠ Handler.addTool) →
        ∀ (k : String) (entry : ServerTool),
          run check unmarshal (run check unmarshal main cs0) cs k = some entry →
          run check unmarshal main cs0 k = some entry := by
  refine ⟨?_, ?_, ?_⟩
  · intro c hname hn
    have hlook : main c.name = some Scenario.deleteEntry := by rw [hname]; decide
    rw [dispatch_handled check unmarshal main c Scenario.deleteEntry hlook rfl]
    simp only [runHandler, Scenario.deleteEntry]
    rcases deleteToolHandler_cases main c.arguments with ⟨_, _⟩ | ⟨m, hm, heq⟩
    · rename_i h1 h2
      exfalso
      cases hmap : asMap c.arguments with
      | none => simp [toolNameOf, hmap] at hn
      | some fields =>
        simp only [toolNameOf, hmap] at hn
        simp [deleteToolHandler, hmap, hn] at h2
    · rw [hn] at hm
      cases hm
      rw [heq]
      simp [DeleteTools]
  · intro c fields d pl P hname ha hn hd hp hu
    have hlook : main c.name = some Scenario.addEntry := by rw [hname]; decide
    rw [dispatch_handled check unmarshal main c Scenario.addEntry hlook rfl]
    simp only [runHandler, Scenario.addEntry]
    rw [ha, addToolHandler_ok unmarshal c.order main fields "add_tool" d pl P hn hd hp hu]
    refine ⟨⟨NewTool "add_tool" (toolOptions d (c.order.visit P)),
      Handler.dynamic "add_tool" P⟩, ?_, rfl, fun _ _ _ => rfl⟩
    simp [AddTool, NewTool_name]
  · intro cs0 cs hlost k entry hk
    exact run_noAdder check unmarshal cs _
      (noAdder_of_lost _ (wellBound_run check unmarshal cs0 main wellBound_main) hlost)
      k entry hk

/-- After `delete_tool` removed "add_tool" from the registry of `main`, the
`add_tool` call for "echo" registers nothing. -/
theorem C20_losing_add_tool_is_irreversible_witness :
    run noCheck decodeFlags main [Scenario.deleteAddTool] "add_tool" = none ∧
    (dispatch noCheck decodeFlags (run noCheck decodeFlags main [Scenario.deleteAddTool])
        Scenario.addEcho).2 = DispatchOutcome.unknownOperation "add_tool" ∧
    ∀ entry : ServerTool,
      run noCheck decodeFlags (run noCheck decodeFlags main [Scenario.deleteAddTool])
          [Scenario.addEcho] "echo" = some entry →
        run noCheck decodeFlags main [Scenario.deleteAddTool] "echo" = some entry :=
  ⟨by decide, by decide,
    (C20_losing_add_tool_is_irreversible noCheck decodeFlags).2.2 [Scenario.deleteAddTool]
      [Scenario.addEcho]
      (by
        intro entry h
        have h0 : run noCheck decodeFlags main [Scenario.deleteAddTool] "add_tool" = none := by
          decide
        rw [h0] at h
        cases h)
      "echo"⟩

/-! ## The empty name -/

/-- C21: the adapter and the direct servers disagree on the empty name. When
the arguments bind "name" to the empty string, the adapter's `helloHandler`,
with the `/greet` endpoint served by `greetHandler` and a request body that
decodes to the empty name, returns no greeting but the error "received non-200
response: 400, body: Invalid request body" followed by the line feed `http.Error`
appends; on the same arguments the direct `helloHandler`, of the SSE and stdio
servers and of the dynamic-tool server, succeeds with "Hello, !, This is from
your go mcp server". -/
theorem C21_empty_name_disagreement (marshal : String → Except String String)
    (decodeRequest : String → Except String Rest.GreetingRequest)
    (encodeResponse : Rest.GreetingResponse → String)
    (decodeResponse : String → Except String Rest.GreetingResponse)
    (arguments : List (String × Any)) (body : String)
    (hname : mapGet arguments "name" = some (Any.str ""))
    (hmarshal : marshal "" = Except.ok body)
    (hrequest : decodeRequest body = Except.ok { name := "" }) :
    Rest2MCP.helloHandler marshal (Rest2MCP.greetEndpoint decodeRequest encodeResponse)
        decodeResponse arguments =
      Outcome.error "received non-200 response: 400, body: Invalid request body\n" ∧
      (∀ r, Rest2MCP.helloHandler marshal
          (Rest2MCP.greetEndpoint decodeRequest encodeResponse) decodeResponse arguments ≠
        Outcome.result r) ∧
      SSE.helloHandler arguments =
        Outcome.result
          { content := [Content.text "Hello, !, This is from your go mcp server"],
            isError := false } ∧
      helloHandler (Any.obj arguments) =
        Outcome.result
          { content := [Content.text "Hello, !, This is from your go mcp server"],
            isError := false } := by
  have hgreet : Rest.greetHandler decodeRequest encodeResponse
      { method := "POST", body := body } = Rest.httpError "Invalid request body" 400 := by
    simp [Rest.greetHandler, hrequest]
  have hadapter : Rest2MCP.helloHandler marshal
      (Rest2MCP.greetEndpoint decodeRequest encodeResponse) decodeResponse arguments =
      Outcome.error "received non-200 response: 400, body: Invalid request body\n" := by
    simp only [Rest2MCP.helloHandler, mapIndex_of_get hname, asString, hmarshal,
      Rest2MCP.greetEndpoint, hgreet, Rest.httpError]
    rfl
  refine ⟨hadapter, ?_, ?_, ?_⟩
  · intro r hr
    rw [hadapter] at hr
    cases hr
  · simp only [SSE.helloHandler, mapIndex_of_get hname, asString, NewToolResultText]
    rfl
  · simp only [helloHandler, asMap, mapIndex_of_get hname, asString, NewToolResultText]
    rfl

/-- The call of "hello_world" with the name "", through the adapter and
directly. -/
theorem C21_empty_name_disagreement_witness :
    (marshalName "" = Except.ok "\x7b\"name\":\"\"\x7d" ∧
      decodeGreetingRequest "\x7b\"name\":\"\"\x7d" = Except.ok { name := "" }) ∧
    Rest2MCP.helloHandler marshalName
        (Rest2MCP.greetEndpoint decodeGreetingRequest encodeGreetingResponse)
        decodeGreetingResponse [("name", Any.str "")] =
      Outcome.error "received non-200 response: 400, body: Invalid request body\n" ∧
    SSE.helloHandler [("name", Any.str "")] =
      Outcome.result
        { content := [Content.text "Hello, !, This is from your go mcp server"],
          isError := false } :=
  ⟨⟨rfl, rfl⟩,
    (C21_empty_name_disagreement marshalName decodeGreetingRequest encodeGreetingResponse
      decodeGreetingResponse [("name", Any.str "")] "\x7b\"name\":\"\"\x7d" rfl rfl rfl).1,
    (C21_empty_name_disagreement marshalName decodeGreetingRequest encodeGreetingResponse
      decodeGreetingResponse [("name", Any.str "")] "\x7b\"name\":\"\"\x7d" rfl rfl rfl).2.2.1⟩

end MCPDemo
